import Mathlib

/-!
FallVision chart scripts: `charts.js` and `dashboard.js`.

A shallow embedding of the two browser scripts.  The scripts are glue code: they look a
canvas up in the document, build a gradient on its 2d context and hand a configuration
object to the charting engine.  The embedding has three parts:

* `JsValue`: the object literals the scripts build, translated field by field;
* `Double`: the numbers of JavaScript (IEEE 754 binary64) with the operations the scripts
  apply to them, `score * 100` and `100 - score * 100`, rounded to nearest with ties to
  even, overflowing to an infinity and keeping the sign of zero;
* `World`: the part of the browser the scripts talk to.  It holds the document (which
  identifiers resolve to a canvas), the colour strings the browser can parse, the gradient
  objects created so far, and a log of every call the scripts issue to the browser and to
  the charting engine, in order.

Numbers that the scripts only pass through (the samples of the mobility chart, the three
magnitudes of the risk chart, the constants of the literals) are kept as rationals.
-/

namespace FallVision

/-! ## Values -/

/-- A canvas element of the document, by identity. -/
abbrev Element := Nat

/-- A gradient object, by identity: its position in `World.gradients`. -/
abbrev GradientRef := Nat

/-- A JavaScript number: NaN, an infinity, negative zero, or a finite value (positive zero
is `finite 0`). -/
inductive Double where
  | nan
  | inf (neg : Bool)
  | negZero
  | finite (q : ℚ)
deriving DecidableEq, Repr

/-- The JavaScript values that occur in the configuration literals of the scripts.  A
finite number is `num`; the other numbers have their own constructors. -/
inductive JsValue where
  | bool (b : Bool)
  | num (q : ℚ)
  | nan
  | inf (neg : Bool)
  | negZero
  | str (s : String)
  | gradient (g : GradientRef)
  | arr (items : List JsValue)
  | obj (fields : List (String × JsValue))

/-- A number as a value of a configuration literal. -/
def Double.toJs : Double → JsValue
  | Double.nan => JsValue.nan
  | Double.inf n => JsValue.inf n
  | Double.negZero => JsValue.negZero
  | Double.finite q => JsValue.num q

/-- The 2d drawing context of a canvas.  `getContext("2d")` returns the same context
object on every call for one canvas, so the context is identified by its canvas. -/
structure Context2D where
  canvas : Element
deriving DecidableEq, Repr

/-- The first argument of `new Chart(item, config)`: `charts.js` passes a 2d context,
`dashboard.js` passes whatever `getElementById` returned (an element or `null`). -/
inductive ChartItem where
  | context2d (ctx : Context2D)
  | element (el : Element)
  | null
deriving DecidableEq, Repr

/-- One colour stop of a gradient. -/
structure ColorStop where
  offset : ℚ
  color : String
deriving DecidableEq, Repr

/-- A linear gradient object: its extent and the colour stops added so far. -/
structure CanvasGradient where
  x0 : ℚ
  y0 : ℚ
  x1 : ℚ
  y1 : ℚ
  stops : List ColorStop
deriving DecidableEq, Repr

/-- A call issued by the scripts to the browser or to the charting engine. -/
inductive Event where
  | getElementById (id : String)
  | getContext (el : Element) (contextType : String)
  | createLinearGradient (ctx : Context2D) (x0 y0 x1 y1 : ℚ)
  | addColorStop (g : GradientRef) (offset : ℚ) (color : String)
  | newChart (item : ChartItem) (config : JsValue)

/-- The run-time failures the scripts can meet: a property read on `null`, and the two
exceptions of `addColorStop` (an offset outside `[0, 1]`, a colour that does not parse). -/
inductive JsError where
  | typeError (msg : String)
  | domIndexSizeError
  | domSyntaxError (color : String)
deriving DecidableEq, Repr

/-- The browser state the scripts run against.  `cssParser` tells which colour strings the
browser parses, beyond those of `knownCssColors`. -/
structure World where
  document : String → Option Element
  gradients : List CanvasGradient
  log : List Event
  cssParser : String → Bool

/-- Record a call in the log. -/
def World.emit (w : World) (e : Event) : World :=
  { w with log := w.log ++ [e] }

/-- The colour strings that the scripts themselves supply, both in the `rgba()` notation
of CSS; every browser parses them. -/
def knownCssColors : List String :=
  ["rgba(244,180,0,0.4)", "rgba(244,180,0,0.02)"]

/-- Whether the browser parses a string as a CSS colour. -/
def World.parsesColor (w : World) (color : String) : Bool :=
  knownCssColors.contains color || w.cssParser color

/-! ## The arithmetic of binary64 -/

/-- The nearest integer, ties to the even one. -/
def roundHalfEven (y : ℚ) : ℤ :=
  if y - ⌊y⌋ < 1 / 2 then ⌊y⌋
  else if 1 / 2 < y - ⌊y⌋ then ⌊y⌋ + 1
  else if ⌊y⌋ % 2 = 0 then ⌊y⌋
  else ⌊y⌋ + 1

/-- The binary exponent of the binade of `x`, not below that of the subnormals. -/
def binadeExp (x : ℚ) : ℤ := max (Int.log 2 |x|) (-1022)

/-- The spacing of binary64 values around `x`: 53 significant bits. -/
def quantum (x : ℚ) : ℚ := 2 ^ (binadeExp x - 52)

/-- The binary64 value nearest to `x`, ties to even, before the overflow check. -/
def roundFinite (x : ℚ) : ℚ := roundHalfEven (x / quantum x) * quantum x

/-- The binary64 result for the exact value `x`: an infinity when the rounded value
reaches `2^1024`, and a zero of the sign given by `negIfZero` when it is zero. -/
def round64 (x : ℚ) (negIfZero : Bool) : Double :=
  if 2 ^ 1024 ≤ |roundFinite x| then Double.inf (decide (roundFinite x < 0))
  else if roundFinite x = 0 ∧ negIfZero = true then Double.negZero
  else Double.finite (roundFinite x)

/-- The sign bit of a number. -/
def Double.isNeg : Double → Bool
  | Double.nan => false
  | Double.inf n => n
  | Double.negZero => true
  | Double.finite q => decide (q < 0)

/-- Whether a number is `-0`. -/
def Double.isNegZero : Double → Bool
  | Double.negZero => true
  | _ => false

/-- Whether a number is `+0`. -/
def Double.isPosZero : Double → Bool
  | Double.finite q => decide (q = 0)
  | _ => false

/-- Whether a number is a zero of either sign. -/
def Double.isZero (x : Double) : Bool := x.isNegZero || x.isPosZero

/-- The value of a finite number; 0 for the others. -/
def Double.toRat : Double → ℚ
  | Double.finite q => q
  | _ => 0

/-- Whether a number is NaN. -/
def Double.isNaN : Double → Bool
  | Double.nan => true
  | _ => false

/-- Whether a number is an infinity. -/
def Double.isInf : Double → Bool
  | Double.inf _ => true
  | _ => false

/-- Whether a number is neither NaN nor an infinity. -/
def Double.isFinite (x : Double) : Bool := !x.isNaN && !x.isInf

/-- The product `x * y` of JavaScript numbers. -/
def mul64 (x y : Double) : Double :=
  if x.isNaN ∨ y.isNaN then Double.nan
  else if x.isInf ∨ y.isInf then
    if x.isZero ∨ y.isZero then Double.nan else Double.inf (xor x.isNeg y.isNeg)
  else round64 (x.toRat * y.toRat) (xor x.isNeg y.isNeg)

/-- The difference `x - y` of JavaScript numbers. -/
def sub64 (x y : Double) : Double :=
  if x.isNaN ∨ y.isNaN then Double.nan
  else if x.isInf then
    if y.isInf ∧ x.isNeg = y.isNeg then Double.nan else x
  else if y.isInf then Double.inf (!y.isNeg)
  else round64 (x.toRat - y.toRat) (x.isNegZero && y.isPosZero)

/-- The sum `x + y` of JavaScript numbers. -/
def add64 (x y : Double) : Double :=
  if x.isNaN ∨ y.isNaN then Double.nan
  else if x.isInf then
    if y.isInf ∧ x.isNeg ≠ y.isNeg then Double.nan else x
  else if y.isInf then y
  else round64 (x.toRat + y.toRat) (x.isNegZero && y.isNegZero)

/-- The place of a value in the order of binary64: nothing for NaN, otherwise a rank (`-1`
for `-∞`, `0` for a finite value, `1` for `+∞`) and the finite value; `-0` and `+0` share a
place. -/
def Double.key : Double → Option (ℤ × ℚ)
  | Double.nan => none
  | Double.inf true => some (-1, 0)
  | Double.inf false => some (1, 0)
  | Double.negZero => some (0, 0)
  | Double.finite q => some (0, q)

/-- The comparison `x < y` of JavaScript numbers; false when either side is NaN. -/
def Double.lt (x y : Double) : Prop :=
  match x.key, y.key with
  | some a, some b => a.1 < b.1 ∨ (a.1 = b.1 ∧ a.2 < b.2)
  | _, _ => False

/-- The comparison `x <= y` of JavaScript numbers; false when either side is NaN. -/
def Double.le (x y : Double) : Prop :=
  match x.key, y.key with
  | some a, some b => a.1 < b.1 ∨ (a.1 = b.1 ∧ a.2 ≤ b.2)
  | _, _ => False

/-- A value that binary64 can hold: every non-finite value and `-0`, and the finite values
that rounding leaves alone and that lie below the overflow threshold. -/
def Double.IsBinary64 : Double → Prop
  | Double.finite q => roundFinite q = q ∧ |q| < 2 ^ 1024
  | _ => True

instance (x y : Double) : Decidable (Double.lt x y) := by
  unfold Double.lt; split <;> infer_instance

instance (x y : Double) : Decidable (Double.le x y) := by
  unfold Double.le; split <;> infer_instance

instance (x : Double) : Decidable x.IsBinary64 := by
  cases x <;> unfold Double.IsBinary64 <;> infer_instance

/-- The values of binary64 with the exponent unbounded above: an integer of fewer than 54
bits times a power of two no smaller than the least subnormal. -/
def Representable (f : ℚ) : Prop :=
  ∃ n k : ℤ, |n| < 2 ^ 53 ∧ -1074 ≤ k ∧ f = n * 2 ^ k

/-! ## Browser and engine calls -/

/-- The call `ctx.createLinearGradient(x0, y0, x1, y1)`: allocates a gradient without stops. -/
def createLinearGradient (ctx : Context2D) (x0 y0 x1 y1 : ℚ) (w : World) :
    GradientRef × World :=
  (w.gradients.length,
    { w with
      gradients := w.gradients ++ [{ x0 := x0, y0 := y0, x1 := x1, y1 := y1, stops := [] }]
      log := w.log ++ [Event.createLinearGradient ctx x0 y0 x1 y1] })

/-- The call `gradient.addColorStop(offset, color)`.  It throws when the offset lies
outside `[0, 1]` and when the colour does not parse; otherwise it appends a stop to the
gradient object.  The call is logged in each case. -/
def addColorStop (g : GradientRef) (offset : ℚ) (color : String) (w : World) :
    Except JsError Unit × World :=
  let w1 := w.emit (Event.addColorStop g offset color)
  if offset < 0 ∨ 1 < offset then (Except.error JsError.domIndexSizeError, w1)
  else if w.parsesColor color then
    (Except.ok (),
      { w1 with
        gradients :=
          w.gradients.modify (fun gr => { gr with stops := gr.stops ++ [⟨offset, color⟩] }) g })
  else (Except.error (JsError.domSyntaxError color), w1)

/-- The call `new Chart(item, config)`: the configuration is handed to the charting engine. -/
def newChart (item : ChartItem) (config : JsValue) (w : World) : World :=
  w.emit (Event.newChart item config)

/-- The expression `document.getElementById(canvasId).getContext("2d")`.  When the lookup
yields `null`, reading `getContext` from it throws. -/
def acquireContext (canvasId : String) (w : World) : Except JsError Context2D × World :=
  let w1 := w.emit (Event.getElementById canvasId)
  match w.document canvasId with
  | none => (Except.error (JsError.typeError "null has no getContext"), w1)
  | some el => (Except.ok ⟨el⟩, w1.emit (Event.getContext el "2d"))

/-! ## charts.js -/

/-- The function `createGradient(ctx, colorStart, colorEnd)`.  An exception of either
`addColorStop` is not caught: it ends the function before the statements that follow. -/
def createGradient (ctx : Context2D) (colorStart colorEnd : String) (w : World) :
    Except JsError GradientRef × World :=
  let (gradient, w1) := createLinearGradient ctx 0 0 0 400 w
  match addColorStop gradient 0 colorStart w1 with
  | (Except.error e, w2) => (Except.error e, w2)
  | (Except.ok _, w2) =>
    match addColorStop gradient 1 colorEnd w2 with
    | (Except.error e, w3) => (Except.error e, w3)
    | (Except.ok _, w3) => (Except.ok gradient, w3)

/-- The object literal that `renderMobilityChart` passes to `new Chart`. -/
def mobilityChartConfig (data : List ℚ) (gradient : GradientRef) : JsValue :=
  JsValue.obj [
    ("type", JsValue.str "line"),
    ("data", JsValue.obj [
      ("labels", JsValue.arr (data.mapIdx fun i _ => JsValue.str ("Day " ++ toString (i + 1)))),
      ("datasets", JsValue.arr [JsValue.obj [
        ("data", JsValue.arr (data.map JsValue.num)),
        ("borderColor", JsValue.str "#f4b400"),
        ("backgroundColor", JsValue.gradient gradient),
        ("fill", JsValue.bool true)]])]),
    ("options", JsValue.obj [
      ("responsive", JsValue.bool true),
      ("maintainAspectRatio", JsValue.bool false),
      ("animation", JsValue.obj [
        ("duration", JsValue.num 1200),
        ("easing", JsValue.str "easeOutQuart")]),
      ("scales", JsValue.obj [
        ("x", JsValue.obj [
          ("grid", JsValue.obj [("display", JsValue.bool false)]),
          ("ticks", JsValue.obj [("color", JsValue.str "#999")])]),
        ("y", JsValue.obj [
          ("grid", JsValue.obj [("color", JsValue.str "rgba(0,0,0,0.05)")]),
          ("ticks", JsValue.obj [("color", JsValue.str "#999")])])])])]

/-- The function `renderMobilityChart(canvasId, data)`. -/
def renderMobilityChart (canvasId : String) (data : List ℚ) (w : World) :
    Except JsError Unit × World :=
  match acquireContext canvasId w with
  | (Except.error e, w1) => (Except.error e, w1)
  | (Except.ok ctx, w1) =>
    match createGradient ctx "rgba(244,180,0,0.4)" "rgba(244,180,0,0.02)" w1 with
    | (Except.error e, w2) => (Except.error e, w2)
    | (Except.ok gradient, w2) =>
      (Except.ok (),
        newChart (ChartItem.context2d ctx) (mobilityChartConfig data gradient) w2)

/-- The object literal that `renderRiskChart` passes to `new Chart`. -/
def riskChartConfig (low moderate elevated : ℚ) : JsValue :=
  JsValue.obj [
    ("type", JsValue.str "bar"),
    ("data", JsValue.obj [
      ("labels", JsValue.arr [JsValue.str "Low", JsValue.str "Moderate", JsValue.str "Elevated"]),
      ("datasets", JsValue.arr [JsValue.obj [
        ("data", JsValue.arr [JsValue.num low, JsValue.num moderate, JsValue.num elevated]),
        ("backgroundColor", JsValue.arr [
          JsValue.str "#4caf50",
          JsValue.str "#ff9800",
          JsValue.str "#f44336"]),
        ("borderRadius", JsValue.num 12)]])]),
    ("options", JsValue.obj [
      ("responsive", JsValue.bool true),
      ("maintainAspectRatio", JsValue.bool false),
      ("scales", JsValue.obj [
        ("x", JsValue.obj [("grid", JsValue.obj [("display", JsValue.bool false)])]),
        ("y", JsValue.obj [
          ("grid", JsValue.obj [("color", JsValue.str "rgba(0,0,0,0.05)")])])])])]

/-- The function `renderRiskChart(canvasId, low, moderate, elevated)`. -/
def renderRiskChart (canvasId : String) (low moderate elevated : ℚ) (w : World) :
    Except JsError Unit × World :=
  match acquireContext canvasId w with
  | (Except.error e, w1) => (Except.error e, w1)
  | (Except.ok ctx, w1) =>
    (Except.ok (), newChart (ChartItem.context2d ctx) (riskChartConfig low moderate elevated) w1)

/-- The object literal that `renderCircularScore` passes to `new Chart`.  The two segments
are computed in binary64, as `score * 100` and `100 - score * 100` are in the script. -/
def circularScoreConfig (score : Double) : JsValue :=
  JsValue.obj [
    ("type", JsValue.str "doughnut"),
    ("data", JsValue.obj [
      ("datasets", JsValue.arr [JsValue.obj [
        ("data", JsValue.arr [
          (mul64 score (Double.finite 100)).toJs,
          (sub64 (Double.finite 100) (mul64 score (Double.finite 100))).toJs]),
        ("backgroundColor", JsValue.arr [JsValue.str "#f4b400", JsValue.str "#f1f1f1"]),
        ("borderWidth", JsValue.num 0)]])]),
    ("options", JsValue.obj [
      ("cutout", JsValue.str "75%"),
      ("plugins", JsValue.obj [
        ("tooltip", JsValue.obj [("enabled", JsValue.bool false)])])])]

/-- The function `renderCircularScore(canvasId, score)`. -/
def renderCircularScore (canvasId : String) (score : Double) (w : World) :
    Except JsError Unit × World :=
  match acquireContext canvasId w with
  | (Except.error e, w1) => (Except.error e, w1)
  | (Except.ok ctx, w1) =>
    (Except.ok (), newChart (ChartItem.context2d ctx) (circularScoreConfig score) w1)

/-! ## dashboard.js -/

/-- The object literal that `dashboard.js` passes to `new Chart`. -/
def movementChartConfig : JsValue :=
  JsValue.obj [
    ("type", JsValue.str "bar"),
    ("data", JsValue.obj [
      ("labels", JsValue.arr [
        JsValue.str "Right Arm", JsValue.str "Left Arm",
        JsValue.str "Right Leg", JsValue.str "Left Leg"]),
      ("datasets", JsValue.arr [JsValue.obj [
        ("label", JsValue.str "Limb Angles"),
        ("data", JsValue.arr [
          JsValue.num 90, JsValue.num 110, JsValue.num 70, JsValue.num 85])]])])]

/-- The script `dashboard.js`: a lookup of `movementChart` and one `new Chart` on the
result of the lookup itself (no `getContext`, so an absent element is passed on as
`null`). -/
def dashboard (w : World) : World :=
  let w1 := w.emit (Event.getElementById "movementChart")
  let ctx : ChartItem :=
    match w.document "movementChart" with
    | none => ChartItem.null
    | some el => ChartItem.element el
  newChart ctx movementChartConfig w1

/-! ## Reading a configuration and a log -/

/-- Property read `v[key]` on an object literal. -/
def JsValue.get (key : String) : JsValue → Option JsValue
  | JsValue.obj fields => fields.lookup key
  | _ => none

/-- The elements of an array value. -/
def JsValue.items : JsValue → Option (List JsValue)
  | JsValue.arr xs => some xs
  | _ => none

/-- Follow a chain of property reads. -/
def JsValue.path : List String → JsValue → Option JsValue
  | [], v => some v
  | k :: ks, v => (v.get k).bind (JsValue.path ks)

/-- The `type` of a chart configuration. -/
def chartKind (cfg : JsValue) : Option JsValue :=
  cfg.path ["type"]

/-- The `data.labels` sequence of a chart configuration. -/
def labelsOf (cfg : JsValue) : Option (List JsValue) :=
  (cfg.path ["data", "labels"]).bind JsValue.items

/-- The `data.datasets` sequence of a chart configuration. -/
def datasetsOf (cfg : JsValue) : Option (List JsValue) :=
  (cfg.path ["data", "datasets"]).bind JsValue.items

/-- The single dataset of a chart configuration; `none` unless `data.datasets` holds
exactly one dataset. -/
def datasetOf (cfg : JsValue) : Option JsValue :=
  match datasetsOf cfg with
  | some [d] => some d
  | _ => none

/-- The `data` sequence of the single dataset of a chart configuration. -/
def seriesOf (cfg : JsValue) : Option (List JsValue) :=
  (datasetOf cfg).bind fun d => (d.get "data").bind JsValue.items

/-- The configurations handed to the charting engine in a sequence of calls. -/
def chartsIn : List Event → List (ChartItem × JsValue)
  | [] => []
  | Event.newChart item cfg :: es => (item, cfg) :: chartsIn es
  | _ :: es => chartsIn es

/-- The calls issued between the world `before` and the later world `after`. -/
def eventsSince (before after : World) : List Event :=
  after.log.drop before.log.length

/-- The configurations handed to the charting engine between two worlds. -/
def chartsSince (before after : World) : List (ChartItem × JsValue) :=
  chartsIn (eventsSince before after)

/-- A document in which exactly one identifier resolves. -/
def singleCanvas (id : String) (el : Element) : String → Option Element :=
  fun x => if x = id then some el else none

/-- A fresh page holding one canvas `id`, in a browser that parses, beyond the colours of
`knownCssColors`, the colour names `red` and `blue`. -/
def page (id : String) (el : Element) : World :=
  { document := singleCanvas id el, gradients := [], log := [],
    cssParser := fun c => ["red", "blue"].contains c }

/-- The filled segment `score * 100`. -/
def filled (score : Double) : Double := mul64 score (Double.finite 100)

/-- The remainder segment `100 - score * 100`. -/
def remainder (score : Double) : Double := sub64 (Double.finite 100) (filled score)

/-- The binary64 value nearest to `0.73`. -/
def score073 : Double := Double.finite (1643813863990231 / 2 ^ 51)

/-- The binary64 value nearest to `0.07`. -/
def score007 : Double := Double.finite (1261007895663739 / 2 ^ 54)

/-- The binary64 value nearest to `0.57`. -/
def score057 : Double := Double.finite (5134103575202365 / 2 ^ 53)

/-- The binary64 value `2^1018`, a score whose product with 100 overflows. -/
def scoreHuge : Double := Double.finite (2 ^ 1018)

/-- The binary64 value `-2⁻⁵⁷`, a negative score of about `-6.9e-18`. -/
def scoreTinyNeg : Double := Double.finite (-(1 / 2 ^ 57))

/-! ## Facts about the rounding of binary64 -/

theorem roundHalfEven_cases (y : ℚ) :
    roundHalfEven y = ⌊y⌋ ∧ y - ⌊y⌋ ≤ 1 / 2 ∨ roundHalfEven y = ⌊y⌋ + 1 ∧ 1 / 2 ≤ y - ⌊y⌋ := by
  unfold roundHalfEven
  split_ifs with h1 h2
  · exact Or.inl ⟨rfl, le_of_lt h1⟩
  · exact Or.inr ⟨rfl, le_of_lt h2⟩
  · exact Or.inl ⟨rfl, le_of_not_lt h2⟩
  · exact Or.inr ⟨rfl, le_of_not_lt h1⟩

theorem roundHalfEven_nearest (y : ℚ) (j : ℤ) :
    |(roundHalfEven y : ℚ) - y| ≤ |(j : ℚ) - y| := by
  have hf := Int.floor_le y
  have hc := Int.lt_floor_add_one y
  have hj : j ≤ ⌊y⌋ ∨ ⌊y⌋ + 1 ≤ j := by omega
  have hj' : (j : ℚ) ≤ (⌊y⌋ : ℚ) ∨ ((⌊y⌋ : ℚ) + 1 ≤ (j : ℚ)) := by
    rcases hj with h | h
    · exact Or.inl (by exact_mod_cast h)
    · exact Or.inr (by exact_mod_cast h)
  rcases roundHalfEven_cases y with ⟨hr, h⟩ | ⟨hr, h⟩
  · rw [hr]
    rcases hj' with h' | h'
    · rw [abs_le]; constructor
      · have := neg_abs_le ((j : ℚ) - y); have := abs_nonneg ((j:ℚ) - y); linarith
      · have := neg_abs_le ((j : ℚ) - y); linarith [neg_le_abs ((j:ℚ) - y)]
    · rw [abs_le]; constructor
      · have := le_abs_self ((j : ℚ) - y); linarith
      · have := le_abs_self ((j : ℚ) - y); linarith
  · rw [hr]; push_cast
    rcases hj' with h' | h'
    · rw [abs_le]; constructor
      · linarith [neg_le_abs ((j:ℚ) - y)]
      · linarith [neg_le_abs ((j:ℚ) - y)]
    · rw [abs_le]; constructor
      · linarith [le_abs_self ((j:ℚ) - y)]
      · linarith [le_abs_self ((j:ℚ) - y)]

theorem roundHalfEven_error (y : ℚ) : |(roundHalfEven y : ℚ) - y| ≤ 1 / 2 := by
  have hf := Int.floor_le y
  have hc := Int.lt_floor_add_one y
  rcases roundHalfEven_cases y with ⟨hr, h⟩ | ⟨hr, h⟩
  · rw [hr, abs_le]; constructor <;> linarith
  · rw [hr, abs_le]; push_cast; constructor <;> linarith

/-- A value within half a unit of an even integer rounds to that integer. -/
theorem roundHalfEven_near_even (N : ℤ) (t : ℚ) (hN : N % 2 = 0) (ht : |t| ≤ 1 / 2) :
    roundHalfEven (N + t) = N := by
  rw [abs_le] at ht
  unfold roundHalfEven
  by_cases h0 : 0 ≤ t
  · have hfl : ⌊(N : ℚ) + t⌋ = N := by
      rw [Int.floor_eq_iff]; constructor <;> linarith
    rw [hfl]
    split_ifs with h1 h2
    · rfl
    · exfalso; linarith
    · rfl
  · have hfl : ⌊(N : ℚ) + t⌋ = N - 1 := by
      rw [Int.floor_eq_iff]; push_cast; constructor <;> linarith
    rw [hfl]
    have hodd : ¬ (N - 1) % 2 = 0 := by omega
    split_ifs with h1 h2
    · exfalso; push_cast at h1; linarith
    · ring
    · ring

/-- A value strictly within half a unit of an integer rounds to that integer. -/
theorem roundHalfEven_near (N : ℤ) (t : ℚ) (ht : |t| < 1 / 2) :
    roundHalfEven (N + t) = N := by
  rw [abs_lt] at ht
  unfold roundHalfEven
  by_cases h0 : 0 ≤ t
  · have hfl : ⌊(N : ℚ) + t⌋ = N := by
      rw [Int.floor_eq_iff]; constructor <;> linarith
    rw [hfl]
    have h1 : (N : ℚ) + t - N < 1 / 2 := by linarith
    rw [if_pos h1]
  · have hfl : ⌊(N : ℚ) + t⌋ = N - 1 := by
      rw [Int.floor_eq_iff]; push_cast; constructor <;> linarith
    rw [hfl]
    have h1 : ¬ ((N : ℚ) + t - ((N - 1 : ℤ) : ℚ) < 1 / 2) := by push_cast; linarith
    have h2 : (1 / 2 : ℚ) < (N : ℚ) + t - ((N - 1 : ℤ) : ℚ) := by push_cast; linarith
    rw [if_neg h1, if_pos h2]
    ring

theorem quantum_pos (x : ℚ) : 0 < quantum x := by
  unfold quantum; positivity

theorem binadeExp_ge (x : ℚ) : -1022 ≤ binadeExp x := le_max_right _ _

theorem log_le_binadeExp (x : ℚ) : Int.log 2 |x| ≤ binadeExp x := le_max_left _ _

theorem abs_lt_binade (x : ℚ) : |x| < 2 ^ (binadeExp x + 1) := by
  have h := Int.lt_zpow_succ_log_self (b := 2) (by norm_num) |x|
  rw [Nat.cast_ofNat] at h
  have h2 : (2 : ℚ) ^ (Int.log 2 |x| + 1) ≤ 2 ^ (binadeExp x + 1) :=
    zpow_le_zpow_right₀ (by norm_num) (by have := log_le_binadeExp x; omega)
  exact lt_of_lt_of_le h h2

theorem binade_le_abs (x : ℚ) (hx : x ≠ 0) (h : -1022 < binadeExp x) :
    2 ^ binadeExp x ≤ |x| := by
  have he : binadeExp x = Int.log 2 |x| := by
    unfold binadeExp at h ⊢
    rcases max_cases (Int.log 2 |x|) (-1022) with ⟨h1, _⟩ | ⟨h1, _⟩
    · exact h1
    · rw [h1] at h; omega
  rw [he]
  have := Int.zpow_log_le_self (b := 2) (r := |x|) (by norm_num) (abs_pos.mpr hx)
  rwa [Nat.cast_ofNat] at this

theorem roundFinite_zero : roundFinite 0 = 0 := by
  simp [roundFinite, roundHalfEven]

/-- The rounded value is no farther from `x` than any multiple of the quantum of `x`. -/
theorem roundFinite_nearest_multiple (x : ℚ) (j : ℤ) :
    |roundFinite x - x| ≤ |j * quantum x - x| := by
  have hq := quantum_pos x
  have h := roundHalfEven_nearest (x / quantum x) j
  have e1 : roundFinite x - x = ((roundHalfEven (x / quantum x) : ℚ) - x / quantum x) * quantum x := by
    unfold roundFinite; field_simp
  have e2 : j * quantum x - x = ((j : ℚ) - x / quantum x) * quantum x := by
    field_simp
  rw [e1, e2, abs_mul, abs_mul, abs_of_pos hq]
  exact mul_le_mul_of_nonneg_right h hq.le

/-- Rounding moves a value by at most half its quantum. -/
theorem roundFinite_error (x : ℚ) : |roundFinite x - x| ≤ quantum x / 2 := by
  have hq := quantum_pos x
  have h := roundHalfEven_error (x / quantum x)
  have e1 : roundFinite x - x = ((roundHalfEven (x / quantum x) : ℚ) - x / quantum x) * quantum x := by
    unfold roundFinite; field_simp
  rw [e1, abs_mul, abs_of_pos hq]
  calc |(roundHalfEven (x / quantum x) : ℚ) - x / quantum x| * quantum x
      ≤ 1 / 2 * quantum x := mul_le_mul_of_nonneg_right h hq.le
    _ = quantum x / 2 := by ring

/-- The rounded value is a nearest representable value. -/
theorem roundFinite_nearest (x f : ℚ) (hf : Representable f) :
    |roundFinite x - x| ≤ |f - x| := by
  obtain ⟨n, k, hn, hk, rfl⟩ := hf
  by_cases hx : x = 0
  · subst hx; rw [roundFinite_zero]; simp
  by_cases hke : binadeExp x - 52 ≤ k
  · -- `f` is a multiple of the quantum
    obtain ⟨d, hd⟩ : ∃ d : ℕ, k = binadeExp x - 52 + d := ⟨(k - (binadeExp x - 52)).toNat, by omega⟩
    have : (n : ℚ) * 2 ^ k = ((n * 2 ^ d : ℤ) : ℚ) * quantum x := by
      unfold quantum
      rw [hd, zpow_add₀ (by norm_num), zpow_natCast]; push_cast; ring
    rw [this]
    exact roundFinite_nearest_multiple x _
  · -- `f` lies strictly inside the binade below `x`
    have hk2 : k + 53 ≤ binadeExp x := by omega
    have he : -1022 < binadeExp x := by omega
    have hlow := binade_le_abs x hx he
    have hnq : |(n : ℚ)| < 2 ^ (53 : ℤ) := by
      have : ((|n| : ℤ) : ℚ) < ((2 ^ 53 : ℤ) : ℚ) := by exact_mod_cast hn
      rw [Int.cast_abs] at this; push_cast at this
      rw [show (53 : ℤ) = ((53 : ℕ) : ℤ) by norm_num, zpow_natCast]; exact this
    have hfabs : |(n : ℚ) * 2 ^ k| < 2 ^ binadeExp x := by
      rw [abs_mul, abs_of_pos (show (0 : ℚ) < 2 ^ k by positivity)]
      calc |(n : ℚ)| * 2 ^ k < 2 ^ (53 : ℤ) * 2 ^ k :=
            mul_lt_mul_of_pos_right hnq (by positivity)
        _ = 2 ^ (k + 53) := by rw [zpow_add₀ (by norm_num)]; ring
        _ ≤ 2 ^ binadeExp x := zpow_le_zpow_right₀ (by norm_num) hk2
    have hpow : (2 : ℚ) ^ binadeExp x = ((2 ^ 52 : ℤ) : ℚ) * quantum x := by
      unfold quantum
      rw [show binadeExp x = (binadeExp x - 52) + ((52 : ℕ) : ℤ) by push_cast; ring,
        zpow_add₀ (by norm_num), zpow_natCast]
      push_cast
      rw [show binadeExp x - 52 + 52 - 52 = binadeExp x - 52 by ring]; ring
    rcases lt_or_gt_of_ne hx with hneg | hpos
    · have h1 := roundFinite_nearest_multiple x (-(2 ^ 52))
      have h2 : ((-(2 ^ 52) : ℤ) : ℚ) * quantum x = -(2 ^ binadeExp x) := by
        rw [hpow]; push_cast; ring
      rw [h2] at h1
      rw [abs_of_neg hneg] at hlow
      have h3 : |-(2 : ℚ) ^ binadeExp x - x| = -(2 : ℚ) ^ binadeExp x - x := by
        apply abs_of_nonneg; linarith
      rw [h3] at h1
      have h4 := (abs_lt.mp hfabs).1
      calc |roundFinite x - x| ≤ -(2 : ℚ) ^ binadeExp x - x := h1
        _ ≤ (n : ℚ) * 2 ^ k - x := by linarith
        _ ≤ |(n : ℚ) * 2 ^ k - x| := le_abs_self _
    · have h1 := roundFinite_nearest_multiple x (2 ^ 52)
      rw [← hpow] at h1
      rw [abs_of_pos hpos] at hlow
      have h3 : |(2 : ℚ) ^ binadeExp x - x| = x - (2 : ℚ) ^ binadeExp x := by
        rw [abs_sub_comm]; apply abs_of_nonneg; linarith
      rw [h3] at h1
      have h4 := (abs_lt.mp hfabs).2
      calc |roundFinite x - x| ≤ x - (2 : ℚ) ^ binadeExp x := h1
        _ ≤ -((n : ℚ) * 2 ^ k - x) := by linarith
        _ ≤ |(n : ℚ) * 2 ^ k - x| := neg_le_abs _

/-- A representable value is a fixed point of the rounding. -/
theorem roundFinite_of_representable (f : ℚ) (hf : Representable f) : roundFinite f = f := by
  have h := roundFinite_nearest f f hf
  simp only [sub_self, abs_zero, abs_nonpos_iff] at h
  linarith

/-- Rounding does not cross a representable value from above. -/
theorem le_roundFinite (c x : ℚ) (hc : Representable c) (h : c ≤ x) : c ≤ roundFinite x := by
  by_contra hlt
  push_neg at hlt
  have h1 := roundFinite_nearest x c hc
  rw [abs_of_nonpos (by linarith), abs_of_nonpos (by linarith)] at h1
  linarith

/-- Rounding does not cross a representable value from below. -/
theorem roundFinite_le (c x : ℚ) (hc : Representable c) (h : x ≤ c) : roundFinite x ≤ c := by
  by_contra hlt
  push_neg at hlt
  have h1 := roundFinite_nearest x c hc
  rw [abs_of_nonneg (by linarith), abs_of_nonneg (by linarith)] at h1
  linarith

theorem binadeExp_eq (x : ℚ) (e : ℤ) (he : -1022 ≤ e) (h1 : 2 ^ e ≤ |x|)
    (h2 : |x| < 2 ^ (e + 1)) : binadeExp x = e := by
  have hpos : 0 < |x| := lt_of_lt_of_le (by positivity) h1
  have hlo : e ≤ Int.log 2 |x| := by
    rw [← Int.zpow_le_iff_le_log (by norm_num) hpos, Nat.cast_ofNat]; exact h1
  have hhi : Int.log 2 |x| < e + 1 := by
    rw [← Int.lt_zpow_iff_log_lt (by norm_num) hpos, Nat.cast_ofNat]; exact h2
  unfold binadeExp
  rw [max_eq_left (by omega)]
  omega

theorem binadeExp_le (x : ℚ) (e : ℤ) (he : 0 ≤ e) (h2 : |x| < 2 ^ (e + 1)) :
    binadeExp x ≤ e := by
  unfold binadeExp
  apply max_le _ (by omega)
  by_cases hx : x = 0
  · subst hx; simp [Int.log_zero_right]; omega
  · have hpos : 0 < |x| := abs_pos.mpr hx
    have : Int.log 2 |x| < e + 1 := by
      rw [← Int.lt_zpow_iff_log_lt (by norm_num) hpos, Nat.cast_ofNat]; exact h2
    omega

/-- Below 128 the rounding moves a value by at most `2⁻⁴⁷`. -/
theorem roundFinite_error_lt_128 (x : ℚ) (hx : |x| < 128) :
    |roundFinite x - x| ≤ 1 / 2 ^ 47 := by
  have h := roundFinite_error x
  have he : binadeExp x ≤ 6 := binadeExp_le x 6 (by norm_num) (by norm_num; exact hx)
  have hq : quantum x ≤ 2 ^ (-46 : ℤ) := by
    unfold quantum
    exact zpow_le_zpow_right₀ (by norm_num) (by omega)
  have h46 : (2 : ℚ) ^ (-46 : ℤ) = 1 / 2 ^ 46 := by
    rw [zpow_neg, show (46 : ℤ) = ((46 : ℕ) : ℤ) by norm_num, zpow_natCast]; simp
  rw [h46] at hq
  calc |roundFinite x - x| ≤ quantum x / 2 := h
    _ ≤ (1 / 2 ^ 46) / 2 := by linarith
    _ = 1 / 2 ^ 47 := by norm_num

/-- A value within `2⁻⁴⁷` of 100 rounds to 100. -/
theorem roundFinite_near_100 (d : ℚ) (hd : |d| ≤ 1 / 2 ^ 47) : roundFinite (100 + d) = 100 := by
  have hd' := abs_le.mp hd
  have hsmall : (1 : ℚ) / 2 ^ 47 < 1 := by norm_num
  have hx : |100 + d| = 100 + d := abs_of_nonneg (by linarith)
  have he : binadeExp (100 + d) = 6 := by
    apply binadeExp_eq _ _ (by norm_num)
    · rw [hx]; norm_num; linarith
    · rw [hx]; norm_num; linarith
  have hq : quantum (100 + d) = 1 / 2 ^ 46 := by
    unfold quantum; rw [he]
    rw [show (6 : ℤ) - 52 = -46 by norm_num, zpow_neg,
      show (46 : ℤ) = ((46 : ℕ) : ℤ) by norm_num, zpow_natCast]; simp
  unfold roundFinite
  rw [hq]
  have hdiv : (100 + d) / (1 / 2 ^ 46) = ((100 * 2 ^ 46 : ℤ) : ℚ) + d * 2 ^ 46 := by
    push_cast; field_simp; ring
  rw [hdiv, roundHalfEven_near_even _ _ (by norm_num)]
  · push_cast; norm_num
  · rw [abs_mul, abs_of_pos (show (0 : ℚ) < 2 ^ 46 by positivity)]
    calc |d| * 2 ^ 46 ≤ 1 / 2 ^ 47 * 2 ^ 46 := mul_le_mul_of_nonneg_right hd (by positivity)
      _ = 1 / 2 := by norm_num

/-- A fixed point of the rounding is an integer multiple of its quantum. -/
theorem fixed_eq_multiple (s : ℚ) (hs : roundFinite s = s) :
    s = roundHalfEven (s / quantum s) * quantum s := by
  unfold roundFinite at hs; exact hs.symm

/-- The least binary64 value above 1 is `1 + 2⁻⁵²`. -/
theorem fixed_gt_one (s : ℚ) (hs : roundFinite s = s) (h1 : 1 < s) : 1 + 1 / 2 ^ 52 ≤ s := by
  by_cases h2 : 2 ≤ s
  · have : (1 : ℚ) / 2 ^ 52 ≤ 1 := by norm_num
    linarith
  · push_neg at h2
    have hx : |s| = s := abs_of_pos (by linarith)
    have he : binadeExp s = 0 := by
      apply binadeExp_eq _ _ (by norm_num)
      · rw [hx]; norm_num; linarith
      · rw [hx]; norm_num; linarith
    have hq : quantum s = 1 / 2 ^ 52 := by
      unfold quantum; rw [he]
      rw [show (0 : ℤ) - 52 = -52 by norm_num, zpow_neg,
        show (52 : ℤ) = ((52 : ℕ) : ℤ) by norm_num, zpow_natCast]; simp
    have hm := fixed_eq_multiple s hs
    rw [hq] at hm
    set j := roundHalfEven (s / (1 / 2 ^ 52)) with hj
    have hjgt : (2 ^ 52 : ℤ) < j := by
      have : ((2 ^ 52 : ℤ) : ℚ) < (j : ℚ) := by
        push_cast
        have : (1 : ℚ) < (j : ℚ) * (1 / 2 ^ 52) := by rw [← hm]; exact h1
        have h52 : (0 : ℚ) < 2 ^ 52 := by positivity
        field_simp at this; linarith
      exact_mod_cast this
    have hjge : ((2 ^ 52 + 1 : ℤ) : ℚ) ≤ (j : ℚ) := by exact_mod_cast (by omega : 2 ^ 52 + 1 ≤ j)
    rw [hm]
    have h52 : (0 : ℚ) < 1 / 2 ^ 52 := by positivity
    have hmul := mul_le_mul_of_nonneg_right hjge h52.le
    push_cast at hmul
    norm_num at hmul ⊢
    linarith

/-- The greatest binary64 value below 0 is `-2⁻¹⁰⁷⁴`. -/
theorem fixed_lt_zero (s : ℚ) (hs : roundFinite s = s) (h0 : s < 0) :
    s ≤ -(2 : ℚ) ^ (-1074 : ℤ) := by
  have hm := fixed_eq_multiple s hs
  have hq := quantum_pos s
  set j := roundHalfEven (s / quantum s) with hj
  have hjneg : j < 0 := by
    by_contra hcon
    push_neg at hcon
    have : (0 : ℚ) ≤ (j : ℚ) := by exact_mod_cast hcon
    have : 0 ≤ (j : ℚ) * quantum s := mul_nonneg this hq.le
    linarith
  have hjle : (j : ℚ) ≤ -1 := by exact_mod_cast (by omega : j ≤ -1)
  have hqge : (2 : ℚ) ^ (-1074 : ℤ) ≤ quantum s := by
    unfold quantum
    exact zpow_le_zpow_right₀ (by norm_num) (by have := binadeExp_ge s; omega)
  rw [hm]
  calc (j : ℚ) * quantum s ≤ -1 * quantum s := mul_le_mul_of_nonneg_right hjle hq.le
    _ ≤ -(2 : ℚ) ^ (-1074 : ℤ) := by linarith

theorem representable_zero : Representable 0 := ⟨0, 0, by norm_num, by norm_num, by norm_num⟩

theorem representable_100 : Representable 100 := ⟨100, 0, by norm_num, by norm_num, by norm_num⟩

theorem representable_128 : Representable 128 := ⟨128, 0, by norm_num, by norm_num, by norm_num⟩

theorem representable_above_100 : Representable (100 + 1 / 2 ^ 46) :=
  ⟨100 * 2 ^ 46 + 1, -46, by norm_num, by norm_num, by
    rw [zpow_neg, show (46 : ℤ) = ((46 : ℕ) : ℤ) by norm_num, zpow_natCast]; push_cast
    norm_num⟩

theorem representable_neg_ulp : Representable (-(1 / 2 ^ 46)) :=
  ⟨-1, -46, by norm_num, by norm_num, by
    rw [zpow_neg, show (46 : ℤ) = ((46 : ℕ) : ℤ) by norm_num, zpow_natCast]; push_cast
    norm_num⟩

theorem representable_neg_min : Representable (-(2 : ℚ) ^ (-1074 : ℤ)) :=
  ⟨-1, -1074, by norm_num, by norm_num, by push_cast; ring⟩

theorem round64_eq_finite (x : ℚ) (flag : Bool) (h1 : |roundFinite x| < 2 ^ 1024)
    (h2 : roundFinite x ≠ 0 ∨ flag = false) :
    round64 x flag = Double.finite (roundFinite x) := by
  unfold round64
  rw [if_neg (not_le.mpr h1), if_neg]
  rintro ⟨h0, hf⟩
  rcases h2 with h | h
  · exact h h0
  · rw [h] at hf; exact Bool.noConfusion hf

theorem lt_overflow_of_le_1024 (r : ℚ) (h : |r| ≤ 1024) : |r| < 2 ^ 1024 := by
  have h1 : (1024 : ℚ) = 2 ^ 10 := by norm_num
  have h2 : (2 : ℚ) ^ 10 < 2 ^ 1024 := pow_lt_pow_right₀ (by norm_num) (by norm_num)
  linarith

theorem mul64_finite (q r : ℚ) :
    mul64 (Double.finite q) (Double.finite r) =
      round64 (q * r) (xor (decide (q < 0)) (decide (r < 0))) := by
  simp [mul64, Double.toRat, Double.isNeg, Double.isNaN, Double.isInf]

theorem sub64_finite (q r : ℚ) :
    sub64 (Double.finite q) (Double.finite r) = round64 (q - r) false := by
  simp [sub64, Double.toRat, Double.isNeg, Double.isNaN, Double.isInf, Double.isNegZero]

theorem mul64_100_nan : mul64 Double.nan (Double.finite 100) = Double.nan := by
  simp [mul64, Double.isNaN]

theorem not_100_neg : decide ((100 : ℚ) < 0) = false := decide_eq_false (by norm_num)

theorem mul64_100_inf (n : Bool) : mul64 (Double.inf n) (Double.finite 100) = Double.inf n := by
  simp [mul64, Double.isNaN, Double.isInf, Double.isZero, Double.isNegZero, Double.isPosZero,
    Double.isNeg, not_100_neg]

theorem mul64_100_negZero : mul64 Double.negZero (Double.finite 100) = Double.negZero := by
  simp [mul64, Double.isNaN, Double.isInf, Double.isNeg, Double.toRat, round64, roundFinite_zero]

theorem mul64_100_finite (q : ℚ) :
    mul64 (Double.finite q) (Double.finite 100) = round64 (q * 100) (decide (q < 0)) := by
  rw [mul64_finite, not_100_neg, Bool.xor_false]

theorem sub64_100_nan : sub64 (Double.finite 100) Double.nan = Double.nan := by
  simp [sub64, Double.isNaN]

theorem sub64_100_inf (m : Bool) :
    sub64 (Double.finite 100) (Double.inf m) = Double.inf (!m) := by
  simp [sub64, Double.isNaN, Double.isInf, Double.isNeg]

theorem roundFinite_100 : roundFinite 100 = 100 :=
  roundFinite_of_representable 100 representable_100

theorem lt_overflow_100 : ¬ (2 : ℚ) ^ 1024 ≤ |(100 : ℚ)| :=
  not_le.mpr (lt_overflow_of_le_1024 100 (by norm_num))

theorem sub64_100_negZero : sub64 (Double.finite 100) Double.negZero = Double.finite 100 := by
  have h : round64 (100 - 0) false = Double.finite 100 := by
    rw [sub_zero, round64_eq_finite 100 false (by rw [roundFinite_100]; exact not_le.mp lt_overflow_100)
      (Or.inr rfl), roundFinite_100]
  simpa [sub64, Double.isNaN, Double.isInf, Double.toRat, Double.isNegZero] using h

theorem round64_cases (x : ℚ) (flag : Bool) :
    (round64 x flag = Double.inf (decide (roundFinite x < 0)) ∧ 2 ^ 1024 ≤ |roundFinite x|) ∨
    (round64 x flag = Double.negZero ∧ roundFinite x = 0 ∧ flag = true) ∨
    (round64 x flag = Double.finite (roundFinite x) ∧ |roundFinite x| < 2 ^ 1024) := by
  unfold round64
  by_cases h1 : (2 : ℚ) ^ 1024 ≤ |roundFinite x|
  · left; rw [if_pos h1]; exact ⟨rfl, h1⟩
  · rw [if_neg h1]
    by_cases h2 : roundFinite x = 0 ∧ flag = true
    · right; left; rw [if_pos h2]; exact ⟨rfl, h2.1, h2.2⟩
    · right; right; rw [if_neg h2]; exact ⟨rfl, not_le.mp h1⟩

theorem add64_finite (q r : ℚ) :
    add64 (Double.finite q) (Double.finite r) = round64 (q + r) false := by
  simp [add64, Double.toRat, Double.isNaN, Double.isInf, Double.isNegZero]

theorem round64_100 (flag : Bool) : round64 100 flag = Double.finite 100 := by
  rw [round64_eq_finite 100 flag (by rw [roundFinite_100]; exact not_le.mp lt_overflow_100)
    (Or.inl (by rw [roundFinite_100]; norm_num)), roundFinite_100]

/-- The product of a binary64 score above 1 with 100 is at least the next value after
100. -/
theorem scaled_gt_one (q : ℚ) (hfix : roundFinite q = q) (h1 : 1 < q) :
    100 + 1 / 2 ^ 46 ≤ roundFinite (q * 100) := by
  have h := fixed_gt_one q hfix h1
  apply le_roundFinite _ _ representable_above_100
  have : (100 : ℚ) + 1 / 2 ^ 46 ≤ (1 + 1 / 2 ^ 52) * 100 := by norm_num
  linarith

/-- The product of a negative binary64 score with 100 does not round to zero. -/
theorem scaled_neg (q : ℚ) (hfix : roundFinite q = q) (h0 : q < 0) :
    roundFinite (q * 100) ≤ -(2 : ℚ) ^ (-1074 : ℤ) := by
  have h := fixed_lt_zero q hfix h0
  apply roundFinite_le _ _ representable_neg_min
  linarith

/-- The complement of a value at least one step above 100 is negative. -/
theorem complement_neg (r : ℚ) (h : 100 + 1 / 2 ^ 46 ≤ r) : roundFinite (100 - r) < 0 := by
  have h1 := roundFinite_le (-(1 / 2 ^ 46)) (100 - r) representable_neg_ulp (by linarith)
  have : (0 : ℚ) < 1 / 2 ^ 46 := by positivity
  linarith

/-- The complement of a value below `-2⁻⁴⁷` is above 100. -/
theorem complement_gt_100 (r : ℚ) (h : r < -(1 / 2 ^ 47)) : 100 < roundFinite (100 - r) := by
  by_cases hbig : 100 - r < 128
  · have habs : |100 - r| < 128 := by
      rw [abs_lt]; constructor
      · have : (0 : ℚ) < 1 / 2 ^ 47 := by positivity
        linarith
      · exact hbig
    have herr := (abs_le.mp (roundFinite_error_lt_128 (100 - r) habs)).1
    linarith
  · have := le_roundFinite 128 (100 - r) representable_128 (by linarith)
    linarith

/-- The complement of a value in `[-2⁻⁴⁷, 0]` is exactly 100. -/
theorem complement_eq_100 (r : ℚ) (h1 : -(1 / 2 ^ 47) ≤ r) (h2 : r ≤ 0) :
    roundFinite (100 - r) = 100 := by
  have := roundFinite_near_100 (-r) (by rw [abs_le]; constructor <;> linarith)
  rwa [← sub_eq_add_neg] at this

/-- For a score in `[0, 1]` both segments are finite and lie in `[0, 100]`, their exact sum
is within `2⁻⁴⁷` of 100, and their binary64 sum is exactly 100. -/
theorem segments_unit (s : Double) (h0 : Double.le (Double.finite 0) s)
    (h1 : Double.le s (Double.finite 1)) :
    (filled s).isFinite = true ∧ (remainder s).isFinite = true ∧
    Double.le (Double.finite 0) (filled s) ∧ Double.le (filled s) (Double.finite 100) ∧
    Double.le (Double.finite 0) (remainder s) ∧
    Double.le (remainder s) (Double.finite 100) ∧
    |(filled s).toRat + (remainder s).toRat - 100| ≤ 1 / 2 ^ 47 ∧
    add64 (filled s) (remainder s) = Double.finite 100 := by
  cases s with
  | nan => simp [Double.le, Double.key] at h0
  | inf n => cases n <;> simp [Double.le, Double.key] at h0 h1
  | negZero =>
    have hf : filled Double.negZero = Double.negZero := mul64_100_negZero
    have hr : remainder Double.negZero = Double.finite 100 := by
      unfold remainder; rw [hf]; exact sub64_100_negZero
    rw [hr, hf]
    refine ⟨rfl, rfl, ?_, ?_, ?_, ?_, ?_, ?_⟩
    · simp [Double.le, Double.key]
    · simp [Double.le, Double.key]
    · simp [Double.le, Double.key]
    · simp [Double.le, Double.key]
    · simp [Double.toRat]
    · have := round64_100 false
      simpa [add64, Double.isNaN, Double.isInf, Double.toRat, Double.isNegZero] using this
  | finite q =>
    have hq0 : 0 ≤ q := by simpa [Double.le, Double.key] using h0
    have hq1 : q ≤ 1 := by simpa [Double.le, Double.key] using h1
    have hlo := le_roundFinite 0 (q * 100) representable_zero (by linarith)
    have hhi := roundFinite_le 100 (q * 100) representable_100 (by linarith)
    have hf : filled (Double.finite q) = Double.finite (roundFinite (q * 100)) := by
      unfold filled
      rw [mul64_100_finite, decide_eq_false (not_lt.mpr hq0)]
      exact round64_eq_finite _ _
        (lt_overflow_of_le_1024 _ (abs_le.mpr ⟨by linarith, by linarith⟩)) (Or.inr rfl)
    have hlo2 := le_roundFinite 0 (100 - roundFinite (q * 100)) representable_zero (by linarith)
    have hhi2 := roundFinite_le 100 (100 - roundFinite (q * 100)) representable_100
      (by linarith)
    have herr := roundFinite_error_lt_128 (100 - roundFinite (q * 100))
      (by rw [abs_lt]; constructor <;> linarith)
    have hr : remainder (Double.finite q) =
        Double.finite (roundFinite (100 - roundFinite (q * 100))) := by
      unfold remainder
      rw [hf, sub64_finite]
      exact round64_eq_finite _ _
        (lt_overflow_of_le_1024 _ (abs_le.mpr ⟨by linarith, by linarith⟩)) (Or.inr rfl)
    have hsum : |roundFinite (q * 100) + roundFinite (100 - roundFinite (q * 100)) - 100| ≤
        1 / 2 ^ 47 := by
      have : roundFinite (q * 100) + roundFinite (100 - roundFinite (q * 100)) - 100 =
          roundFinite (100 - roundFinite (q * 100)) - (100 - roundFinite (q * 100)) := by ring
      rw [this]; exact herr
    rw [hr, hf]
    refine ⟨rfl, rfl, ?_, ?_, ?_, ?_, ?_, ?_⟩
    · simpa [Double.le, Double.key] using hlo
    · simpa [Double.le, Double.key] using hhi
    · simpa [Double.le, Double.key] using hlo2
    · simpa [Double.le, Double.key] using hhi2
    · simpa [Double.toRat] using hsum
    · rw [add64_finite]
      have h100 := roundFinite_near_100 _ hsum
      rw [show (100 : ℚ) + (roundFinite (q * 100) +
        roundFinite (100 - roundFinite (q * 100)) - 100) =
        roundFinite (q * 100) + roundFinite (100 - roundFinite (q * 100)) by ring] at h100
      rw [round64_eq_finite _ false (by rw [h100]; exact not_le.mp lt_overflow_100) (Or.inr rfl),
        h100]

theorem filled_finite (q : ℚ) :
    filled (Double.finite q) = round64 (q * 100) (decide (q < 0)) := mul64_100_finite q

theorem remainder_of_filled_finite (s : Double) (r : ℚ) (h : filled s = Double.finite r) :
    remainder s = round64 (100 - r) false := by
  unfold remainder; rw [h, sub64_finite]

theorem remainder_of_filled_inf (s : Double) (n : Bool) (h : filled s = Double.inf n) :
    remainder s = Double.inf (!n) := by
  unfold remainder; rw [h, sub64_100_inf]

theorem remainder_of_filled_negZero (s : Double) (h : filled s = Double.negZero) :
    remainder s = Double.finite 100 := by
  unfold remainder; rw [h, sub64_100_negZero]

/-- For a binary64 score above 1 the filled segment is above 100 and the remainder is
negative. -/
theorem segments_above_one (s : Double) (hs : s.IsBinary64)
    (h1 : Double.lt (Double.finite 1) s) :
    Double.lt (Double.finite 100) (filled s) ∧ Double.lt (remainder s) (Double.finite 0) := by
  cases s with
  | nan => simp [Double.lt, Double.key] at h1
  | negZero => norm_num [Double.lt, Double.key] at h1
  | inf n =>
    cases n with
    | true => simp [Double.lt, Double.key] at h1
    | false =>
      have hf : filled (Double.inf false) = Double.inf false := mul64_100_inf false
      rw [remainder_of_filled_inf _ _ hf, hf]
      simp [Double.lt, Double.key]
  | finite q =>
    have hq : 1 < q := by simpa [Double.lt, Double.key] using h1
    have hbig := scaled_gt_one q hs.1 hq
    have hpos : (0 : ℚ) < 1 / 2 ^ 46 := by positivity
    have hnn : ¬ roundFinite (q * 100) < 0 := by linarith
    rcases round64_cases (q * 100) (decide (q < 0)) with ⟨he, _⟩ | ⟨_, h0, _⟩ | ⟨he, _⟩
    · rw [decide_eq_false hnn] at he
      have hf : filled (Double.finite q) = Double.inf false := by rw [filled_finite]; exact he
      rw [remainder_of_filled_inf _ _ hf, hf]
      simp [Double.lt, Double.key]
    · exfalso; linarith
    · have hf : filled (Double.finite q) = Double.finite (roundFinite (q * 100)) := by
        rw [filled_finite]; exact he
      have hneg := complement_neg _ hbig
      rw [remainder_of_filled_finite _ _ hf, hf]
      refine ⟨by simp only [Double.lt, Double.key]; right; exact ⟨trivial, by linarith⟩, ?_⟩
      rcases round64_cases (100 - roundFinite (q * 100)) false with
        ⟨he2, _⟩ | ⟨_, h0, _⟩ | ⟨he2, _⟩
      · rw [he2, decide_eq_true hneg]; simp [Double.lt, Double.key]
      · exfalso; linarith
      · rw [he2]; simp only [Double.lt, Double.key]; right; exact ⟨trivial, hneg⟩

/-- For a score below 0 the remainder is at least 100; it is above 100 exactly when the
filled segment is below `-2⁻⁴⁷`. -/
theorem segments_below_zero (s : Double) (h0 : Double.lt s (Double.finite 0)) :
    Double.le (Double.finite 100) (remainder s) ∧
    (Double.lt (Double.finite 100) (remainder s) ↔
      Double.lt (filled s) (Double.finite (-(1 / 2 ^ 47)))) := by
  cases s with
  | nan => simp [Double.lt, Double.key] at h0
  | negZero => simp [Double.lt, Double.key] at h0
  | inf n =>
    cases n with
    | false => simp [Double.lt, Double.key] at h0
    | true =>
      have hf : filled (Double.inf true) = Double.inf true := mul64_100_inf true
      rw [remainder_of_filled_inf _ _ hf, hf]
      simp [Double.lt, Double.le, Double.key]
  | finite q =>
    have hq : q < 0 := by simpa [Double.lt, Double.key] using h0
    have hr0 := roundFinite_le 0 (q * 100) representable_zero (by linarith)
    have h47 : (0 : ℚ) < 1 / 2 ^ 47 := by positivity
    rcases round64_cases (q * 100) (decide (q < 0)) with ⟨he, hov⟩ | ⟨he, hz, _⟩ | ⟨he, _⟩
    · have hneg : roundFinite (q * 100) < 0 := by
        rcases lt_or_eq_of_le hr0 with h | h
        · exact h
        · rw [h] at hov; simp at hov
          exact absurd hov (not_le.mpr (by positivity))
      rw [decide_eq_true hneg] at he
      have hf : filled (Double.finite q) = Double.inf true := by rw [filled_finite]; exact he
      rw [remainder_of_filled_inf _ _ hf, hf]
      simp [Double.lt, Double.le, Double.key]
    · have hf : filled (Double.finite q) = Double.negZero := by rw [filled_finite]; exact he
      rw [remainder_of_filled_negZero _ hf, hf]
      simp [Double.lt, Double.le, Double.key]
    · have hf : filled (Double.finite q) = Double.finite (roundFinite (q * 100)) := by
        rw [filled_finite]; exact he
      rw [remainder_of_filled_finite _ _ hf, hf]
      by_cases hsmall : roundFinite (q * 100) < -(1 / 2 ^ 47)
      · have hgt := complement_gt_100 _ hsmall
        have hsmall2 : roundFinite (q * 100) < -((2 : ℚ) ^ 47)⁻¹ := by
          rw [← one_div]; exact hsmall
        have hnn : ¬ roundFinite (100 - roundFinite (q * 100)) < 0 := by linarith
        rcases round64_cases (100 - roundFinite (q * 100)) false with
          ⟨he2, _⟩ | ⟨_, hz, _⟩ | ⟨he2, _⟩
        · rw [he2, decide_eq_false hnn]
          simp [Double.lt, Double.le, Double.key, hsmall2]
        · exfalso; linarith
        · rw [he2]
          simp [Double.lt, Double.le, Double.key, hsmall2, hgt, le_of_lt hgt]
      · push_neg at hsmall
        have heq := complement_eq_100 _ hsmall hr0
        rw [round64_eq_finite _ false (by rw [heq]; exact not_le.mp lt_overflow_100)
          (Or.inr rfl), heq]
        have hsmall2 : -((2 : ℚ) ^ 47)⁻¹ ≤ roundFinite (q * 100) := by
          rw [← one_div]; exact hsmall
        simp [Double.lt, Double.le, Double.key, hsmall2]

/-- For a binary64 score, a filled segment in `[0, 100]` puts the score in `[0, 1]`. -/
theorem score_of_filled_in_range (s : Double) (hs : s.IsBinary64)
    (h0 : Double.le (Double.finite 0) (filled s))
    (h1 : Double.le (filled s) (Double.finite 100)) :
    Double.le (Double.finite 0) s ∧ Double.le s (Double.finite 1) := by
  cases s with
  | nan =>
    have hf : filled Double.nan = Double.nan := mul64_100_nan
    rw [hf] at h0; simp [Double.le, Double.key] at h0
  | negZero => simp [Double.le, Double.key]
  | inf n =>
    have hf : filled (Double.inf n) = Double.inf n := mul64_100_inf n
    rw [hf] at h0 h1
    cases n <;> simp [Double.le, Double.key] at h0 h1
  | finite q =>
    have hpos : (0 : ℚ) < 1 / 2 ^ 46 := by positivity
    have hmin : (0 : ℚ) < (2 : ℚ) ^ (-1074 : ℤ) := by positivity
    rw [filled_finite] at h0 h1
    have key : 0 ≤ q ∧ q ≤ 1 := by
      by_contra hcon
      have hcases : q < 0 ∨ 1 < q := by
        by_contra h; push_neg at h; exact hcon ⟨h.1, h.2⟩
      rcases hcases with hq | hq
      · have hneg := scaled_neg q hs.1 hq
        have hlt : roundFinite (q * 100) < 0 := by linarith
        rcases round64_cases (q * 100) (decide (q < 0)) with ⟨he, _⟩ | ⟨_, hz, _⟩ | ⟨he, _⟩
        · rw [he, decide_eq_true hlt] at h0; simp [Double.le, Double.key] at h0
        · linarith
        · rw [he] at h0
          simp only [Double.le, Double.key] at h0
          rcases h0 with h | ⟨_, h⟩
          · exact absurd h (by norm_num)
          · linarith
      · have hbig := scaled_gt_one q hs.1 hq
        have hnn : ¬ roundFinite (q * 100) < 0 := by linarith
        rcases round64_cases (q * 100) (decide (q < 0)) with ⟨he, _⟩ | ⟨_, hz, _⟩ | ⟨he, _⟩
        · rw [he, decide_eq_false hnn] at h1; simp [Double.le, Double.key] at h1
        · linarith
        · rw [he] at h1
          simp only [Double.le, Double.key] at h1
          rcases h1 with h | ⟨_, h⟩
          · exact absurd h (by norm_num)
          · linarith
    simpa [Double.le, Double.key] using key

/-- Evaluation of the rounding: in the binade `[2^e, 2^(e+1))` a value strictly within
half a quantum of `j * 2^(e-52)` rounds to it. -/
theorem roundFinite_eval (x : ℚ) (e j : ℤ) (he : -1022 ≤ e) (h1 : 2 ^ e ≤ |x|)
    (h2 : |x| < 2 ^ (e + 1)) (hj : |x / 2 ^ (e - 52) - j| < 1 / 2) :
    roundFinite x = j * 2 ^ (e - 52) := by
  have hb := binadeExp_eq x e he h1 h2
  unfold roundFinite quantum
  rw [hb]
  have : x / 2 ^ (e - 52) = (j : ℚ) + (x / 2 ^ (e - 52) - j) := by ring
  rw [this, roundHalfEven_near j _ hj]

/-- Evaluation of `round64` at a value whose rounding is known. -/
theorem round64_eval (x r : ℚ) (flag : Bool) (hr : roundFinite x = r) (hb : |r| ≤ 1024)
    (hz : r ≠ 0) : round64 x flag = Double.finite r := by
  rw [round64_eq_finite x flag (by rw [hr]; exact lt_overflow_of_le_1024 r hb)
    (Or.inl (by rw [hr]; exact hz)), hr]

theorem score073_isBinary64 : score073.IsBinary64 := by
  refine ⟨roundFinite_of_representable _ ⟨1643813863990231, -51, by norm_num, by norm_num, ?_⟩,
    lt_overflow_of_le_1024 _ (by rw [abs_le]; constructor <;> norm_num)⟩
  norm_num [zpow_neg]

theorem filled_score073 : mul64 score073 (Double.finite 100) = Double.finite 73 := by
  unfold score073
  rw [mul64_100_finite]
  apply round64_eval _ _ _ _ (by norm_num) (by norm_num)
  have h := roundFinite_eval (1643813863990231 / 2 ^ 51 * 100) 6 5136918324969472
    (by norm_num) (by rw [abs_of_pos (by norm_num)]; norm_num)
    (by rw [abs_of_pos (by norm_num)]; norm_num)
    (by norm_num [zpow_neg, abs_lt])
  rw [h]; norm_num [zpow_neg]

theorem remainder_score073 :
    sub64 (Double.finite 100) (mul64 score073 (Double.finite 100)) = Double.finite 27 := by
  rw [filled_score073, sub64_finite]
  apply round64_eval _ _ _ _ (by norm_num) (by norm_num)
  rw [show (100 : ℚ) - 73 = 27 by norm_num]
  exact roundFinite_of_representable _ ⟨27, 0, by norm_num, by norm_num, by norm_num⟩

theorem filled_score007 :
    mul64 score007 (Double.finite 100) = Double.finite (7881299347898369 / 2 ^ 50) := by
  unfold score007
  rw [mul64_100_finite]
  apply round64_eval _ _ _ _ (by rw [abs_le]; constructor <;> norm_num) (by norm_num)
  have h := roundFinite_eval (1261007895663739 / 2 ^ 54 * 100) 2 7881299347898369
    (by norm_num) (by rw [abs_of_pos (by norm_num)]; norm_num)
    (by rw [abs_of_pos (by norm_num)]; norm_num)
    (by norm_num [zpow_neg, abs_lt])
  rw [h]; norm_num [zpow_neg]

theorem remainder_score007 :
    sub64 (Double.finite 100) (mul64 score007 (Double.finite 100)) = Double.finite 93 := by
  rw [filled_score007, sub64_finite]
  apply round64_eval _ _ _ _ (by norm_num) (by norm_num)
  have h := roundFinite_eval (100 - 7881299347898369 / 2 ^ 50) 6 6544293208522752
    (by norm_num) (by rw [abs_of_pos (by norm_num)]; norm_num)
    (by rw [abs_of_pos (by norm_num)]; norm_num)
    (by norm_num [zpow_neg, abs_lt])
  rw [h]; norm_num [zpow_neg]

theorem filled_score057 :
    mul64 score057 (Double.finite 100) = Double.finite (8022036836253695 / 2 ^ 47) := by
  unfold score057
  rw [mul64_100_finite]
  apply round64_eval _ _ _ _ (by rw [abs_le]; constructor <;> norm_num) (by norm_num)
  have h := roundFinite_eval (5134103575202365 / 2 ^ 53 * 100) 5 8022036836253695
    (by norm_num) (by rw [abs_of_pos (by norm_num)]; norm_num)
    (by rw [abs_of_pos (by norm_num)]; norm_num)
    (by norm_num [zpow_neg, abs_lt])
  rw [h]; norm_num [zpow_neg]

theorem remainder_score057 :
    sub64 (Double.finite 100) (mul64 score057 (Double.finite 100)) =
      Double.finite (6051711999279105 / 2 ^ 47) := by
  rw [filled_score057, sub64_finite]
  apply round64_eval _ _ _ _ (by rw [abs_le]; constructor <;> norm_num) (by norm_num)
  rw [show (100 : ℚ) - 8022036836253695 / 2 ^ 47 = 6051711999279105 / 2 ^ 47 by norm_num]
  exact roundFinite_of_representable _
    ⟨6051711999279105, -47, by norm_num, by norm_num, by norm_num [zpow_neg]⟩

theorem scoreTinyNeg_isBinary64 : scoreTinyNeg.IsBinary64 := by
  refine ⟨roundFinite_of_representable _ ⟨-1, -57, by norm_num, by norm_num, ?_⟩,
    lt_overflow_of_le_1024 _ (by rw [abs_le]; constructor <;> norm_num)⟩
  norm_num [zpow_neg]

theorem filled_scoreTinyNeg :
    mul64 scoreTinyNeg (Double.finite 100) = Double.finite (-(25 / 2 ^ 55)) := by
  unfold scoreTinyNeg
  rw [mul64_100_finite]
  apply round64_eval _ _ _ _ (by rw [abs_le]; constructor <;> norm_num) (by norm_num)
  rw [show (-(1 / 2 ^ 57) : ℚ) * 100 = -(25 / 2 ^ 55) by norm_num]
  exact roundFinite_of_representable _
    ⟨-25, -55, by norm_num, by norm_num, by norm_num [zpow_neg]⟩

theorem remainder_scoreTinyNeg :
    sub64 (Double.finite 100) (mul64 scoreTinyNeg (Double.finite 100)) = Double.finite 100 := by
  rw [filled_scoreTinyNeg, sub64_finite]
  apply round64_eval _ _ _ _ (by norm_num) (by norm_num)
  exact complement_eq_100 _ (by norm_num) (by norm_num)

theorem isBinary64_three_halves : (Double.finite (3 / 2)).IsBinary64 := by
  refine ⟨roundFinite_of_representable _ ⟨3, -1, by norm_num, by norm_num, ?_⟩,
    lt_overflow_of_le_1024 _ (by rw [abs_le]; constructor <;> norm_num)⟩
  norm_num [zpow_neg]

theorem isBinary64_neg_half : (Double.finite (-(1 / 2))).IsBinary64 := by
  refine ⟨roundFinite_of_representable _ ⟨-1, -1, by norm_num, by norm_num, ?_⟩,
    lt_overflow_of_le_1024 _ (by rw [abs_le]; constructor <;> norm_num)⟩
  norm_num [zpow_neg]

theorem filled_three_halves :
    mul64 (Double.finite (3 / 2)) (Double.finite 100) = Double.finite 150 := by
  rw [mul64_100_finite]
  apply round64_eval _ _ _ _ (by norm_num) (by norm_num)
  rw [show (3 / 2 : ℚ) * 100 = 150 by norm_num]
  exact roundFinite_of_representable _ ⟨150, 0, by norm_num, by norm_num, by norm_num⟩

theorem remainder_three_halves :
    sub64 (Double.finite 100) (mul64 (Double.finite (3 / 2)) (Double.finite 100)) =
      Double.finite (-50) := by
  rw [filled_three_halves, sub64_finite]
  apply round64_eval _ _ _ _ (by norm_num) (by norm_num)
  rw [show (100 : ℚ) - 150 = -50 by norm_num]
  exact roundFinite_of_representable _ ⟨-50, 0, by norm_num, by norm_num, by norm_num⟩

theorem filled_neg_half :
    mul64 (Double.finite (-(1 / 2))) (Double.finite 100) = Double.finite (-50) := by
  rw [mul64_100_finite]
  apply round64_eval _ _ _ _ (by norm_num) (by norm_num)
  rw [show (-(1 / 2) : ℚ) * 100 = -50 by norm_num]
  exact roundFinite_of_representable _ ⟨-50, 0, by norm_num, by norm_num, by norm_num⟩

theorem remainder_neg_half :
    sub64 (Double.finite 100) (mul64 (Double.finite (-(1 / 2))) (Double.finite 100)) =
      Double.finite 150 := by
  rw [filled_neg_half, sub64_finite]
  apply round64_eval _ _ _ _ (by norm_num) (by norm_num)
  rw [show (100 : ℚ) - -50 = 150 by norm_num]
  exact roundFinite_of_representable _ ⟨150, 0, by norm_num, by norm_num, by norm_num⟩

theorem scoreHuge_isBinary64 : scoreHuge.IsBinary64 := by
  refine ⟨roundFinite_of_representable _ ⟨1, 1018, by norm_num, by norm_num, ?_⟩, ?_⟩
  · rw [show (1018 : ℤ) = ((1018 : ℕ) : ℤ) by norm_num, zpow_natCast]; norm_num
  · rw [abs_of_pos (by positivity)]
    exact pow_lt_pow_right₀ (by norm_num) (by norm_num)

theorem filled_scoreHuge : mul64 scoreHuge (Double.finite 100) = Double.inf false := by
  unfold scoreHuge
  rw [mul64_100_finite]
  have hr : roundFinite ((2 : ℚ) ^ 1018 * 100) = 25 * 2 ^ 1020 := by
    rw [show (2 : ℚ) ^ 1018 * 100 = 25 * 2 ^ 1020 by
      rw [show (1020 : ℕ) = 1018 + 2 by norm_num, pow_add]; ring]
    apply roundFinite_of_representable
    refine ⟨25, 1020, by norm_num, by norm_num, ?_⟩
    rw [show (1020 : ℤ) = ((1020 : ℕ) : ℤ) by norm_num, zpow_natCast]; norm_num
  have hbig : (2 : ℚ) ^ 1024 ≤ |(25 : ℚ) * 2 ^ 1020| := by
    rw [abs_of_pos (by positivity),
      show (1024 : ℕ) = 4 + 1020 by norm_num, pow_add]
    exact mul_le_mul_of_nonneg_right (by norm_num) (by positivity)
  have hpos : ¬ ((25 : ℚ) * 2 ^ 1020 < 0) := not_lt.mpr (by positivity)
  unfold round64
  rw [hr, if_pos hbig, decide_eq_false hpos]

theorem remainder_scoreHuge :
    sub64 (Double.finite 100) (mul64 scoreHuge (Double.finite 100)) = Double.inf true := by
  rw [filled_scoreHuge, sub64_100_inf]; rfl

/-! ## Basic facts about the calls -/

theorem modify_append_singleton {α : Type} (f : α → α) (l : List α) (a : α) :
    (l ++ [a]).modify f l.length = l ++ [f a] := by
  induction l with
  | nil => rfl
  | cons b l ih => simp [ih]

theorem toDigitsCore_eq_digits (fuel : Nat) : ∀ (n : Nat) (ds : List Char), 0 < n → n < fuel →
    Nat.toDigitsCore 10 fuel n ds = (Nat.digits 10 n).reverse.map Nat.digitChar ++ ds := by
  induction fuel with
  | zero => intro n ds _ h; omega
  | succ fuel ih =>
    intro n ds hn hlt
    rw [Nat.digits_def' (by norm_num) hn]
    simp only [Nat.toDigitsCore]
    by_cases h0 : n / 10 = 0
    · simp [h0]
    · rw [if_neg h0, ih (n / 10) _ (Nat.pos_of_ne_zero h0) (by omega)]
      simp

/-- The string `Nat.repr n` is the decimal rendering of a positive `n`: its characters are
the base-10 digits of `n`, most significant first. -/
theorem repr_eq_digits (n : Nat) (hn : 0 < n) :
    Nat.repr n = String.mk ((Nat.digits 10 n).reverse.map Nat.digitChar) := by
  simp [Nat.repr, Nat.toDigits, toDigitsCore_eq_digits (n + 1) n [] hn (by omega),
    List.asString]

theorem eventsSince_append (w w2 : World) (es : List Event) (h : w2.log = w.log ++ es) :
    eventsSince w w2 = es := by
  simp [eventsSince, h]

theorem acquireContext_none (canvasId : String) (w : World) (h : w.document canvasId = none) :
    acquireContext canvasId w =
      (Except.error (JsError.typeError "null has no getContext"),
        { w with log := w.log ++ [Event.getElementById canvasId] }) := by
  simp [acquireContext, h, World.emit]

theorem acquireContext_some (canvasId : String) (w : World) (el : Element)
    (h : w.document canvasId = some el) :
    acquireContext canvasId w =
      (Except.ok ⟨el⟩,
        { w with log := w.log ++ [Event.getElementById canvasId, Event.getContext el "2d"] }) := by
  simp [acquireContext, h, World.emit]

theorem parsesColor_fill_start (w : World) : w.parsesColor "rgba(244,180,0,0.4)" = true := by
  simp [World.parsesColor, knownCssColors]

theorem parsesColor_fill_end (w : World) : w.parsesColor "rgba(244,180,0,0.02)" = true := by
  simp [World.parsesColor, knownCssColors]

theorem addColorStop_ok (g : GradientRef) (offset : ℚ) (color : String) (w : World)
    (h0 : 0 ≤ offset) (h1 : offset ≤ 1) (hp : w.parsesColor color = true) :
    addColorStop g offset color w =
      (Except.ok (),
        { w with
          gradients :=
            w.gradients.modify (fun gr => { gr with stops := gr.stops ++ [⟨offset, color⟩] }) g
          log := w.log ++ [Event.addColorStop g offset color] }) := by
  unfold addColorStop
  rw [if_neg (by push_neg; exact ⟨h0, h1⟩), if_pos hp]
  rfl

theorem addColorStop_reject (g : GradientRef) (offset : ℚ) (color : String) (w : World)
    (h0 : 0 ≤ offset) (h1 : offset ≤ 1) (hp : w.parsesColor color = false) :
    addColorStop g offset color w =
      (Except.error (JsError.domSyntaxError color),
        { w with log := w.log ++ [Event.addColorStop g offset color] }) := by
  unfold addColorStop
  rw [if_neg (by push_neg; exact ⟨h0, h1⟩), if_neg (by rw [hp]; exact Bool.false_ne_true)]
  rfl

theorem addColorStop_mk_ok (g : GradientRef) (offset : ℚ) (color : String)
    (d : String → Option Element) (gs : List CanvasGradient) (l : List Event)
    (p : String → Bool) (h0 : 0 ≤ offset) (h1 : offset ≤ 1)
    (hp : (knownCssColors.contains color || p color) = true) :
    addColorStop g offset color ⟨d, gs, l, p⟩ =
      (Except.ok (),
        ⟨d, gs.modify (fun gr => { gr with stops := gr.stops ++ [⟨offset, color⟩] }) g,
          l ++ [Event.addColorStop g offset color], p⟩) :=
  addColorStop_ok g offset color ⟨d, gs, l, p⟩ h0 h1 hp

theorem addColorStop_mk_reject (g : GradientRef) (offset : ℚ) (color : String)
    (d : String → Option Element) (gs : List CanvasGradient) (l : List Event)
    (p : String → Bool) (h0 : 0 ≤ offset) (h1 : offset ≤ 1)
    (hp : (knownCssColors.contains color || p color) = false) :
    addColorStop g offset color ⟨d, gs, l, p⟩ =
      (Except.error (JsError.domSyntaxError color),
        ⟨d, gs, l ++ [Event.addColorStop g offset color], p⟩) :=
  addColorStop_reject g offset color ⟨d, gs, l, p⟩ h0 h1 hp

theorem createGradient_eq (ctx : Context2D) (colorStart colorEnd : String) (w : World)
    (h1 : w.parsesColor colorStart = true) (h2 : w.parsesColor colorEnd = true) :
    createGradient ctx colorStart colorEnd w =
      (Except.ok w.gradients.length,
        { w with
          gradients := w.gradients ++ [⟨0, 0, 0, 400, [⟨0, colorStart⟩, ⟨1, colorEnd⟩]⟩]
          log := w.log ++ [Event.createLinearGradient ctx 0 0 0 400,
            Event.addColorStop w.gradients.length 0 colorStart,
            Event.addColorStop w.gradients.length 1 colorEnd] }) := by
  simp only [createGradient, createLinearGradient]
  rw [addColorStop_mk_ok _ 0 colorStart _ _ _ _ (by norm_num) (by norm_num) h1]
  simp only []
  rw [addColorStop_mk_ok _ 1 colorEnd _ _ _ _ (by norm_num) (by norm_num) h2]
  simp [modify_append_singleton]

/-- An unparsable start colour: the first `addColorStop` throws, the gradient keeps no
stop and the second `addColorStop` is never called. -/
theorem createGradient_reject_start (ctx : Context2D) (colorStart colorEnd : String)
    (w : World) (h1 : w.parsesColor colorStart = false) :
    createGradient ctx colorStart colorEnd w =
      (Except.error (JsError.domSyntaxError colorStart),
        { w with
          gradients := w.gradients ++ [⟨0, 0, 0, 400, []⟩]
          log := w.log ++ [Event.createLinearGradient ctx 0 0 0 400,
            Event.addColorStop w.gradients.length 0 colorStart] }) := by
  simp only [createGradient, createLinearGradient]
  rw [addColorStop_mk_reject _ 0 colorStart _ _ _ _ (by norm_num) (by norm_num) h1]
  simp

/-- An unparsable end colour: the second `addColorStop` throws after the first stop was
added, and no gradient is returned. -/
theorem createGradient_reject_end (ctx : Context2D) (colorStart colorEnd : String)
    (w : World) (h1 : w.parsesColor colorStart = true) (h2 : w.parsesColor colorEnd = false) :
    createGradient ctx colorStart colorEnd w =
      (Except.error (JsError.domSyntaxError colorEnd),
        { w with
          gradients := w.gradients ++ [⟨0, 0, 0, 400, [⟨0, colorStart⟩]⟩]
          log := w.log ++ [Event.createLinearGradient ctx 0 0 0 400,
            Event.addColorStop w.gradients.length 0 colorStart,
            Event.addColorStop w.gradients.length 1 colorEnd] }) := by
  simp only [createGradient, createLinearGradient]
  rw [addColorStop_mk_ok _ 0 colorStart _ _ _ _ (by norm_num) (by norm_num) h1]
  simp only []
  rw [addColorStop_mk_reject _ 1 colorEnd _ _ _ _ (by norm_num) (by norm_num) h2]
  simp [modify_append_singleton]

theorem renderMobilityChart_none (canvasId : String) (data : List ℚ) (w : World)
    (h : w.document canvasId = none) :
    renderMobilityChart canvasId data w =
      (Except.error (JsError.typeError "null has no getContext"),
        { w with log := w.log ++ [Event.getElementById canvasId] }) := by
  simp [renderMobilityChart, acquireContext_none canvasId w h]

theorem renderMobilityChart_some (canvasId : String) (data : List ℚ) (w : World)
    (el : Element) (h : w.document canvasId = some el) :
    renderMobilityChart canvasId data w =
      (Except.ok (),
        { w with
          gradients := w.gradients ++
            [⟨0, 0, 0, 400, [⟨0, "rgba(244,180,0,0.4)"⟩, ⟨1, "rgba(244,180,0,0.02)"⟩]⟩]
          log := w.log ++ [Event.getElementById canvasId, Event.getContext el "2d",
            Event.createLinearGradient ⟨el⟩ 0 0 0 400,
            Event.addColorStop w.gradients.length 0 "rgba(244,180,0,0.4)",
            Event.addColorStop w.gradients.length 1 "rgba(244,180,0,0.02)",
            Event.newChart (ChartItem.context2d ⟨el⟩)
              (mobilityChartConfig data w.gradients.length)] }) := by
  simp only [renderMobilityChart, acquireContext_some canvasId w el h]
  rw [createGradient_eq _ _ _ _ (parsesColor_fill_start _) (parsesColor_fill_end _)]
  simp [newChart, World.emit]

theorem renderRiskChart_none (canvasId : String) (low moderate elevated : ℚ) (w : World)
    (h : w.document canvasId = none) :
    renderRiskChart canvasId low moderate elevated w =
      (Except.error (JsError.typeError "null has no getContext"),
        { w with log := w.log ++ [Event.getElementById canvasId] }) := by
  simp [renderRiskChart, acquireContext_none canvasId w h]

theorem renderRiskChart_some (canvasId : String) (low moderate elevated : ℚ) (w : World)
    (el : Element) (h : w.document canvasId = some el) :
    renderRiskChart canvasId low moderate elevated w =
      (Except.ok (),
        { w with
          log := w.log ++ [Event.getElementById canvasId, Event.getContext el "2d",
            Event.newChart (ChartItem.context2d ⟨el⟩)
              (riskChartConfig low moderate elevated)] }) := by
  simp [renderRiskChart, acquireContext_some canvasId w el h, newChart, World.emit]

theorem renderCircularScore_none (canvasId : String) (score : Double) (w : World)
    (h : w.document canvasId = none) :
    renderCircularScore canvasId score w =
      (Except.error (JsError.typeError "null has no getContext"),
        { w with log := w.log ++ [Event.getElementById canvasId] }) := by
  simp [renderCircularScore, acquireContext_none canvasId w h]

theorem renderCircularScore_some (canvasId : String) (score : Double) (w : World)
    (el : Element) (h : w.document canvasId = some el) :
    renderCircularScore canvasId score w =
      (Except.ok (),
        { w with
          log := w.log ++ [Event.getElementById canvasId, Event.getContext el "2d",
            Event.newChart (ChartItem.context2d ⟨el⟩) (circularScoreConfig score)] }) := by
  simp [renderCircularScore, acquireContext_some canvasId w el h, newChart, World.emit]

theorem dashboard_eq (w : World) :
    dashboard w =
      { w with
        log := w.log ++ [Event.getElementById "movementChart",
          Event.newChart
            (match w.document "movementChart" with
              | none => ChartItem.null
              | some el => ChartItem.element el)
            movementChartConfig] } := by
  simp [dashboard, newChart, World.emit]

/-! ## The mobility chart -/

/-- C1: when the canvas resolves, `renderMobilityChart` hands the engine one configuration
whose label sequence has exactly as many entries as `data`, entry `i` being the string
`"Day "` followed by the decimal rendering of `i + 1` (the base-10 digits of `i + 1`, most
significant first), and whose single dataset carries
the input values unchanged and in order, so label `i` stands next to input value `i`. -/
theorem renderMobilityChart_labels_pair_data (w : World) (canvasId : String) (data : List ℚ)
    (el : Element) (h : w.document canvasId = some el) :
    ∃ cfg labels values,
      chartsSince w (renderMobilityChart canvasId data w).2 =
        [(ChartItem.context2d ⟨el⟩, cfg)] ∧
      labelsOf cfg = some labels ∧ seriesOf cfg = some values ∧
      labels.length = data.length ∧ values = data.map JsValue.num ∧
      ∀ i (hi : i < data.length),
        labels[i]? = some (JsValue.str ("Day " ++ Nat.repr (i + 1))) ∧
        Nat.repr (i + 1) = String.mk ((Nat.digits 10 (i + 1)).reverse.map Nat.digitChar) ∧
        values[i]? = some (JsValue.num data[i]) := by
  refine ⟨mobilityChartConfig data w.gradients.length,
    data.mapIdx fun i _ => JsValue.str ("Day " ++ toString (i + 1)),
    data.map JsValue.num, ?_, rfl, rfl, by simp, rfl, ?_⟩
  · rw [renderMobilityChart_some canvasId data w el h]
    simp [chartsSince, eventsSince, chartsIn]
  · intro i hi
    refine ⟨?_, repr_eq_digits (i + 1) (by omega), by simp [hi]⟩
    simp [hi]
    rfl

/-- Witness for C1: on a page whose canvas `m1` resolves, the samples `[10, 20, 15]` give
the labels `Day 1`, `Day 2`, `Day 3` and the data `[10, 20, 15]`. -/
theorem renderMobilityChart_labels_pair_data_witness :
    (page "m1" 0).document "m1" = some 0 ∧
    (∃ cfg labels values,
      chartsSince (page "m1" 0) (renderMobilityChart "m1" [10, 20, 15] (page "m1" 0)).2 =
        [(ChartItem.context2d ⟨0⟩, cfg)] ∧
      labelsOf cfg = some labels ∧ seriesOf cfg = some values ∧
      labels.length = [(10 : ℚ), 20, 15].length ∧
      values = [(10 : ℚ), 20, 15].map JsValue.num ∧
      ∀ i (hi : i < [(10 : ℚ), 20, 15].length),
        labels[i]? = some (JsValue.str ("Day " ++ Nat.repr (i + 1))) ∧
        Nat.repr (i + 1) = String.mk ((Nat.digits 10 (i + 1)).reverse.map Nat.digitChar) ∧
        values[i]? = some (JsValue.num [(10 : ℚ), 20, 15][i])) ∧
    (chartsSince (page "m1" 0) (renderMobilityChart "m1" [10, 20, 15] (page "m1" 0)).2).map
      (fun p => (labelsOf p.2, seriesOf p.2)) =
      [(some [JsValue.str "Day 1", JsValue.str "Day 2", JsValue.str "Day 3"],
        some [JsValue.num 10, JsValue.num 20, JsValue.num 15])] :=
  ⟨rfl, renderMobilityChart_labels_pair_data (page "m1" 0) "m1" [10, 20, 15] 0 rfl, rfl⟩

/-- C6: when the canvas resolves, the configuration `renderMobilityChart` hands the engine
has kind `line`, border colour `#f4b400`, fill enabled, an animation of 1200 ms with easing
`easeOutQuart`, and as background the gradient that `createGradient` returns on that
canvas's 2d context for the colours `rgba(244,180,0,0.4)` and `rgba(244,180,0,0.02)`; that
gradient is built in the same call and holds exactly those two stops.  None of these values
mentions the sample sequence. -/
theorem renderMobilityChart_fixed_styling (w : World) (canvasId : String) (data : List ℚ)
    (el : Element) (h : w.document canvasId = some el) :
    ∃ cfg dataset g,
      chartsSince w (renderMobilityChart canvasId data w).2 =
        [(ChartItem.context2d ⟨el⟩, cfg)] ∧
      datasetOf cfg = some dataset ∧
      chartKind cfg = some (JsValue.str "line") ∧
      dataset.get "borderColor" = some (JsValue.str "#f4b400") ∧
      dataset.get "fill" = some (JsValue.bool true) ∧
      cfg.path ["options", "animation", "duration"] = some (JsValue.num 1200) ∧
      cfg.path ["options", "animation", "easing"] = some (JsValue.str "easeOutQuart") ∧
      dataset.get "backgroundColor" = some (JsValue.gradient g) ∧
      (createGradient ⟨el⟩ "rgba(244,180,0,0.4)" "rgba(244,180,0,0.02)"
        (acquireContext canvasId w).2).1 = Except.ok g ∧
      (renderMobilityChart canvasId data w).2.gradients[g]? =
        some ⟨0, 0, 0, 400, [⟨0, "rgba(244,180,0,0.4)"⟩, ⟨1, "rgba(244,180,0,0.02)"⟩]⟩ ∧
      eventsSince w (renderMobilityChart canvasId data w).2 =
        eventsSince w (acquireContext canvasId w).2 ++
        eventsSince (acquireContext canvasId w).2
          (createGradient ⟨el⟩ "rgba(244,180,0,0.4)" "rgba(244,180,0,0.02)"
            (acquireContext canvasId w).2).2 ++
        [Event.newChart (ChartItem.context2d ⟨el⟩) cfg] := by
  refine ⟨mobilityChartConfig data w.gradients.length, _, w.gradients.length, ?_, rfl, rfl, rfl,
    rfl, rfl, rfl, rfl, ?_, ?_, ?_⟩
  · rw [renderMobilityChart_some canvasId data w el h]
    simp [chartsSince, eventsSince, chartsIn]
  · rw [acquireContext_some canvasId w el h,
      createGradient_eq _ _ _ _ (parsesColor_fill_start _) (parsesColor_fill_end _)]
  · rw [renderMobilityChart_some canvasId data w el h]
    simp
  · rw [renderMobilityChart_some canvasId data w el h, acquireContext_some canvasId w el h,
      createGradient_eq _ _ _ _ (parsesColor_fill_start _) (parsesColor_fill_end _)]
    simp [eventsSince]

/-- Witness for C6: the page with canvas `m1` and the samples `[10, 20, 15]`. -/
theorem renderMobilityChart_fixed_styling_witness :
    (page "m1" 0).document "m1" = some 0 ∧
    ∃ cfg dataset g,
      chartsSince (page "m1" 0) (renderMobilityChart "m1" [10, 20, 15] (page "m1" 0)).2 =
        [(ChartItem.context2d ⟨0⟩, cfg)] ∧
      datasetOf cfg = some dataset ∧
      chartKind cfg = some (JsValue.str "line") ∧
      dataset.get "borderColor" = some (JsValue.str "#f4b400") ∧
      dataset.get "fill" = some (JsValue.bool true) ∧
      cfg.path ["options", "animation", "duration"] = some (JsValue.num 1200) ∧
      cfg.path ["options", "animation", "easing"] = some (JsValue.str "easeOutQuart") ∧
      dataset.get "backgroundColor" = some (JsValue.gradient g) ∧
      (createGradient ⟨0⟩ "rgba(244,180,0,0.4)" "rgba(244,180,0,0.02)"
        (acquireContext "m1" (page "m1" 0)).2).1 = Except.ok g ∧
      (renderMobilityChart "m1" [10, 20, 15] (page "m1" 0)).2.gradients[g]? =
        some ⟨0, 0, 0, 400, [⟨0, "rgba(244,180,0,0.4)"⟩, ⟨1, "rgba(244,180,0,0.02)"⟩]⟩ ∧
      eventsSince (page "m1" 0) (renderMobilityChart "m1" [10, 20, 15] (page "m1" 0)).2 =
        eventsSince (page "m1" 0) (acquireContext "m1" (page "m1" 0)).2 ++
        eventsSince (acquireContext "m1" (page "m1" 0)).2
          (createGradient ⟨0⟩ "rgba(244,180,0,0.4)" "rgba(244,180,0,0.02)"
            (acquireContext "m1" (page "m1" 0)).2).2 ++
        [Event.newChart (ChartItem.context2d ⟨0⟩) cfg] :=
  ⟨rfl, renderMobilityChart_fixed_styling (page "m1" 0) "m1" [10, 20, 15] 0 rfl⟩

/-! ## The risk chart -/

/-- C4: when the canvas resolves, for every three magnitudes (zero and negative ones
included) `renderRiskChart` hands the engine a `bar` configuration with the labels
`Low`, `Moderate`, `Elevated`, the data `[low, moderate, elevated]` unchanged and the
colours `#4caf50`, `#ff9800`, `#f44336`, each list in this order. -/
theorem renderRiskChart_fixed_categories (w : World) (canvasId : String)
    (low moderate elevated : ℚ) (el : Element) (h : w.document canvasId = some el) :
    ∃ cfg dataset,
      chartsSince w (renderRiskChart canvasId low moderate elevated w).2 =
        [(ChartItem.context2d ⟨el⟩, cfg)] ∧
      chartKind cfg = some (JsValue.str "bar") ∧
      labelsOf cfg =
        some [JsValue.str "Low", JsValue.str "Moderate", JsValue.str "Elevated"] ∧
      datasetOf cfg = some dataset ∧
      seriesOf cfg = some [JsValue.num low, JsValue.num moderate, JsValue.num elevated] ∧
      dataset.get "backgroundColor" = some (JsValue.arr
        [JsValue.str "#4caf50", JsValue.str "#ff9800", JsValue.str "#f44336"]) := by
  refine ⟨riskChartConfig low moderate elevated, _, ?_, rfl, rfl, rfl, rfl, rfl⟩
  rw [renderRiskChart_some canvasId low moderate elevated w el h]
  simp [chartsSince, eventsSince, chartsIn]

/-- Witness for C4: the page with canvas `r1` and the magnitudes `5, 2, 1`; a second run
with `0, -3, 7` shows a zero and a negative input passed through. -/
theorem renderRiskChart_fixed_categories_witness :
    (page "r1" 0).document "r1" = some 0 ∧
    (∃ cfg dataset,
      chartsSince (page "r1" 0) (renderRiskChart "r1" 5 2 1 (page "r1" 0)).2 =
        [(ChartItem.context2d ⟨0⟩, cfg)] ∧
      chartKind cfg = some (JsValue.str "bar") ∧
      labelsOf cfg =
        some [JsValue.str "Low", JsValue.str "Moderate", JsValue.str "Elevated"] ∧
      datasetOf cfg = some dataset ∧
      seriesOf cfg = some [JsValue.num 5, JsValue.num 2, JsValue.num 1] ∧
      dataset.get "backgroundColor" = some (JsValue.arr
        [JsValue.str "#4caf50", JsValue.str "#ff9800", JsValue.str "#f44336"])) ∧
    (chartsSince (page "r1" 0) (renderRiskChart "r1" 0 (-3) 7 (page "r1" 0)).2).map
      (fun p => (labelsOf p.2, seriesOf p.2)) =
      [(some [JsValue.str "Low", JsValue.str "Moderate", JsValue.str "Elevated"],
        some [JsValue.num 0, JsValue.num (-3), JsValue.num 7])] :=
  ⟨rfl, renderRiskChart_fixed_categories (page "r1" 0) "r1" 5 2 1 0 rfl, rfl⟩

/-! ## The unresolved canvas -/

/-- C8: for each of `renderMobilityChart`, `renderRiskChart` and `renderCircularScore` and
every payload.  If the canvas identifier does not resolve, the call ends in the error
raised by the drawing-surface acquisition, in the world that acquisition left: the only
call issued is the lookup, no gradient is built and no configuration is handed to the
engine.  If the identifier resolves, the call returns normally, asks the element for its
`2d` context, and hands exactly one configuration to the engine, bound to that context. -/
theorem render_unresolved_canvas_fails (w : World) (canvasId : String) (data : List ℚ)
    (low moderate elevated : ℚ) (score : Double) :
    ∀ run ∈ [renderMobilityChart canvasId data,
        renderRiskChart canvasId low moderate elevated,
        renderCircularScore canvasId score],
      (w.document canvasId = none →
        ∃ e, (acquireContext canvasId w).1 = Except.error e ∧
          run w = (Except.error e, (acquireContext canvasId w).2) ∧
          eventsSince w (run w).2 = [Event.getElementById canvasId] ∧
          (run w).2.gradients = w.gradients ∧
          chartsSince w (run w).2 = []) ∧
      (∀ el, w.document canvasId = some el →
        ∃ cfg, (run w).1 = Except.ok () ∧
          (eventsSince w (run w).2).take 2 =
            [Event.getElementById canvasId, Event.getContext el "2d"] ∧
          chartsSince w (run w).2 = [(ChartItem.context2d ⟨el⟩, cfg)]) := by
  intro run hrun
  simp only [List.mem_cons, List.mem_singleton, List.not_mem_nil, or_false] at hrun
  rcases hrun with rfl | rfl | rfl
  · refine ⟨fun h => ⟨JsError.typeError "null has no getContext", ?_, ?_, ?_, ?_, ?_⟩,
      fun el h => ⟨mobilityChartConfig data w.gradients.length, ?_, ?_, ?_⟩⟩
    · rw [acquireContext_none canvasId w h]
    · rw [renderMobilityChart_none canvasId data w h, acquireContext_none canvasId w h]
    · rw [renderMobilityChart_none canvasId data w h]; simp [eventsSince]
    · rw [renderMobilityChart_none canvasId data w h]
    · rw [renderMobilityChart_none canvasId data w h]; simp [chartsSince, eventsSince, chartsIn]
    · rw [renderMobilityChart_some canvasId data w el h]
    · rw [renderMobilityChart_some canvasId data w el h]; simp [eventsSince]
    · rw [renderMobilityChart_some canvasId data w el h]
      simp [chartsSince, eventsSince, chartsIn]
  · refine ⟨fun h => ⟨JsError.typeError "null has no getContext", ?_, ?_, ?_, ?_, ?_⟩,
      fun el h => ⟨riskChartConfig low moderate elevated, ?_, ?_, ?_⟩⟩
    · rw [acquireContext_none canvasId w h]
    · rw [renderRiskChart_none canvasId low moderate elevated w h,
        acquireContext_none canvasId w h]
    · rw [renderRiskChart_none canvasId low moderate elevated w h]; simp [eventsSince]
    · rw [renderRiskChart_none canvasId low moderate elevated w h]
    · rw [renderRiskChart_none canvasId low moderate elevated w h]
      simp [chartsSince, eventsSince, chartsIn]
    · rw [renderRiskChart_some canvasId low moderate elevated w el h]
    · rw [renderRiskChart_some canvasId low moderate elevated w el h]; simp [eventsSince]
    · rw [renderRiskChart_some canvasId low moderate elevated w el h]
      simp [chartsSince, eventsSince, chartsIn]
  · refine ⟨fun h => ⟨JsError.typeError "null has no getContext", ?_, ?_, ?_, ?_, ?_⟩,
      fun el h => ⟨circularScoreConfig score, ?_, ?_, ?_⟩⟩
    · rw [acquireContext_none canvasId w h]
    · rw [renderCircularScore_none canvasId score w h, acquireContext_none canvasId w h]
    · rw [renderCircularScore_none canvasId score w h]; simp [eventsSince]
    · rw [renderCircularScore_none canvasId score w h]
    · rw [renderCircularScore_none canvasId score w h]
      simp [chartsSince, eventsSince, chartsIn]
    · rw [renderCircularScore_some canvasId score w el h]
    · rw [renderCircularScore_some canvasId score w el h]; simp [eventsSince]
    · rw [renderCircularScore_some canvasId score w el h]
      simp [chartsSince, eventsSince, chartsIn]

/-- Witness for C8: on the page whose only canvas is `m1`, the identifier `nope` does not
resolve and each of the three functions fails at the acquisition; `m1` resolves and
`renderMobilityChart` hands one configuration to the engine. -/
theorem render_unresolved_canvas_fails_witness :
    (page "m1" 0).document "nope" = none ∧ (page "m1" 0).document "m1" = some 0 ∧
    (∃ e, (acquireContext "nope" (page "m1" 0)).1 = Except.error e ∧
      renderMobilityChart "nope" [10, 20, 15] (page "m1" 0) =
        (Except.error e, (acquireContext "nope" (page "m1" 0)).2) ∧
      eventsSince (page "m1" 0) (renderMobilityChart "nope" [10, 20, 15] (page "m1" 0)).2 =
        [Event.getElementById "nope"] ∧
      (renderMobilityChart "nope" [10, 20, 15] (page "m1" 0)).2.gradients =
        (page "m1" 0).gradients ∧
      chartsSince (page "m1" 0) (renderMobilityChart "nope" [10, 20, 15] (page "m1" 0)).2 =
        []) ∧
    (∃ e, (acquireContext "nope" (page "m1" 0)).1 = Except.error e ∧
      renderRiskChart "nope" 5 2 1 (page "m1" 0) =
        (Except.error e, (acquireContext "nope" (page "m1" 0)).2) ∧
      eventsSince (page "m1" 0) (renderRiskChart "nope" 5 2 1 (page "m1" 0)).2 =
        [Event.getElementById "nope"] ∧
      (renderRiskChart "nope" 5 2 1 (page "m1" 0)).2.gradients = (page "m1" 0).gradients ∧
      chartsSince (page "m1" 0) (renderRiskChart "nope" 5 2 1 (page "m1" 0)).2 = []) ∧
    (∃ e, (acquireContext "nope" (page "m1" 0)).1 = Except.error e ∧
      renderCircularScore "nope" score073 (page "m1" 0) =
        (Except.error e, (acquireContext "nope" (page "m1" 0)).2) ∧
      eventsSince (page "m1" 0) (renderCircularScore "nope" score073 (page "m1" 0)).2 =
        [Event.getElementById "nope"] ∧
      (renderCircularScore "nope" score073 (page "m1" 0)).2.gradients =
        (page "m1" 0).gradients ∧
      chartsSince (page "m1" 0) (renderCircularScore "nope" score073 (page "m1" 0)).2 =
        []) ∧
    (∃ cfg, (renderMobilityChart "m1" [10, 20, 15] (page "m1" 0)).1 = Except.ok () ∧
      (eventsSince (page "m1" 0)
        (renderMobilityChart "m1" [10, 20, 15] (page "m1" 0)).2).take 2 =
        [Event.getElementById "m1", Event.getContext 0 "2d"] ∧
      chartsSince (page "m1" 0) (renderMobilityChart "m1" [10, 20, 15] (page "m1" 0)).2 =
        [(ChartItem.context2d ⟨0⟩, cfg)]) :=
  ⟨rfl, rfl,
    (render_unresolved_canvas_fails (page "m1" 0) "nope" [10, 20, 15] 5 2 1 score073
      (renderMobilityChart "nope" [10, 20, 15]) (by simp)).1 rfl,
    (render_unresolved_canvas_fails (page "m1" 0) "nope" [10, 20, 15] 5 2 1 score073
      (renderRiskChart "nope" 5 2 1) (by simp)).1 rfl,
    (render_unresolved_canvas_fails (page "m1" 0) "nope" [10, 20, 15] 5 2 1 score073
      (renderCircularScore "nope" score073) (by simp)).1 rfl,
    (render_unresolved_canvas_fails (page "m1" 0) "m1" [10, 20, 15] 5 2 1 score073
      (renderMobilityChart "m1" [10, 20, 15]) (by simp)).2 0 rfl⟩

/-! ## The gradient utility -/

/-- C3 does not hold for every two colour strings: on a page whose browser does not parse
`not-a-color`, `createGradient(ctx, "not-a-color", "blue")` throws at the first
`addColorStop`.  Two calls are issued instead of three, the gradient keeps no stop, the
second `addColorStop` is never called and no gradient is returned. -/
theorem createGradient_unparsable_color_throws :
    (page "g1" 0).parsesColor "not-a-color" = false ∧
    (createGradient ⟨0⟩ "not-a-color" "blue" (page "g1" 0)).1 =
      Except.error (JsError.domSyntaxError "not-a-color") ∧
    (createGradient ⟨0⟩ "not-a-color" "blue" (page "g1" 0)).2.log =
      [Event.createLinearGradient ⟨0⟩ 0 0 0 400, Event.addColorStop 0 0 "not-a-color"] ∧
    (createGradient ⟨0⟩ "not-a-color" "blue" (page "g1" 0)).2.gradients =
      [⟨0, 0, 0, 400, []⟩] ∧
    ¬ ∃ g, (createGradient ⟨0⟩ "not-a-color" "blue" (page "g1" 0)).1 = Except.ok g ∧
      (createGradient ⟨0⟩ "not-a-color" "blue" (page "g1" 0)).2.log =
        (page "g1" 0).log ++ [Event.createLinearGradient ⟨0⟩ 0 0 0 400,
          Event.addColorStop g 0 "not-a-color", Event.addColorStop g 1 "blue"] := by
  have hp : (page "g1" 0).parsesColor "not-a-color" = false := by
    simp [page, World.parsesColor, knownCssColors]
  have h := createGradient_reject_start ⟨0⟩ "not-a-color" "blue" (page "g1" 0) hp
  refine ⟨hp, ?_, ?_, ?_, ?_⟩
  · rw [h]
  · rw [h]; rfl
  · rw [h]; rfl
  · rintro ⟨g, hg, _⟩
    rw [h] at hg
    exact absurd hg (by simp)

/-- C3, for colours that parse: for every drawing context and every two colour strings that
the browser parses, `createGradient` issues exactly three calls, in this order: one
`createLinearGradient(0, 0, 0, 400)` on the context, then `addColorStop(0, colorStart)` and
`addColorStop(1, colorEnd)` on the gradient that call returned, the colour strings
unchanged.  It returns that same gradient, which is a new object whose stops are exactly
the two added; the gradients that existed before and the document are untouched. -/
theorem createGradient_two_stops (ctx : Context2D) (colorStart colorEnd : String) (w : World)
    (h1 : w.parsesColor colorStart = true) (h2 : w.parsesColor colorEnd = true) :
    ∃ g, (createGradient ctx colorStart colorEnd w).1 = Except.ok g ∧
      g = (createLinearGradient ctx 0 0 0 400 w).1 ∧
      (createGradient ctx colorStart colorEnd w).2.log = w.log ++
        [Event.createLinearGradient ctx 0 0 0 400,
          Event.addColorStop g 0 colorStart,
          Event.addColorStop g 1 colorEnd] ∧
      (createGradient ctx colorStart colorEnd w).2.gradients = w.gradients ++
        [⟨0, 0, 0, 400, [⟨0, colorStart⟩, ⟨1, colorEnd⟩]⟩] ∧
      (createGradient ctx colorStart colorEnd w).2.gradients[g]? =
        some ⟨0, 0, 0, 400, [⟨0, colorStart⟩, ⟨1, colorEnd⟩]⟩ ∧
      (createGradient ctx colorStart colorEnd w).2.document = w.document := by
  refine ⟨w.gradients.length, ?_⟩
  rw [createGradient_eq ctx colorStart colorEnd w h1 h2]
  simp [createLinearGradient]

/-- Witness for C3: the colours `red` and `blue` on a page whose browser parses
both. -/
theorem createGradient_two_stops_witness :
    (page "g1" 0).parsesColor "red" = true ∧ (page "g1" 0).parsesColor "blue" = true ∧
    ∃ g, (createGradient ⟨0⟩ "red" "blue" (page "g1" 0)).1 = Except.ok g ∧
      g = (createLinearGradient ⟨0⟩ 0 0 0 400 (page "g1" 0)).1 ∧
      (createGradient ⟨0⟩ "red" "blue" (page "g1" 0)).2.log = (page "g1" 0).log ++
        [Event.createLinearGradient ⟨0⟩ 0 0 0 400,
          Event.addColorStop g 0 "red",
          Event.addColorStop g 1 "blue"] ∧
      (createGradient ⟨0⟩ "red" "blue" (page "g1" 0)).2.gradients = (page "g1" 0).gradients ++
        [⟨0, 0, 0, 400, [⟨0, "red"⟩, ⟨1, "blue"⟩]⟩] ∧
      (createGradient ⟨0⟩ "red" "blue" (page "g1" 0)).2.gradients[g]? =
        some ⟨0, 0, 0, 400, [⟨0, "red"⟩, ⟨1, "blue"⟩]⟩ ∧
      (createGradient ⟨0⟩ "red" "blue" (page "g1" 0)).2.document = (page "g1" 0).document :=
  ⟨by simp [page, World.parsesColor], by simp [page, World.parsesColor],
    createGradient_two_stops ⟨0⟩ "red" "blue" (page "g1" 0)
      (by simp [page, World.parsesColor]) (by simp [page, World.parsesColor])⟩

/-! ## The circular score -/

theorem chartsSince_renderCircularScore (w : World) (canvasId : String) (score : Double)
    (el : Element) (h : w.document canvasId = some el) :
    chartsSince w (renderCircularScore canvasId score w).2 =
      [(ChartItem.context2d ⟨el⟩, circularScoreConfig score)] := by
  rw [renderCircularScore_some canvasId score w el h]
  simp [chartsSince, eventsSince, chartsIn]

/-- C5: when the canvas resolves, for every score `renderCircularScore` hands the engine a
`doughnut` configuration with a single dataset of exactly two segments, the filled portion
`score * 100` first and the remainder `100 - score * 100` second, both as binary64 computes
them, the colours `#f4b400`, `#f1f1f1`, the cutout `75%` and tooltips disabled. -/
theorem renderCircularScore_config (w : World) (canvasId : String) (score : Double)
    (el : Element) (h : w.document canvasId = some el) :
    ∃ cfg dataset,
      chartsSince w (renderCircularScore canvasId score w).2 =
        [(ChartItem.context2d ⟨el⟩, cfg)] ∧
      chartKind cfg = some (JsValue.str "doughnut") ∧
      datasetsOf cfg = some [dataset] ∧
      seriesOf cfg = some [(mul64 score (Double.finite 100)).toJs,
        (sub64 (Double.finite 100) (mul64 score (Double.finite 100))).toJs] ∧
      dataset.get "backgroundColor" =
        some (JsValue.arr [JsValue.str "#f4b400", JsValue.str "#f1f1f1"]) ∧
      cfg.path ["options", "cutout"] = some (JsValue.str "75%") ∧
      cfg.path ["options", "plugins", "tooltip", "enabled"] = some (JsValue.bool false) :=
  ⟨circularScoreConfig score, _, chartsSince_renderCircularScore w canvasId score el h,
    rfl, rfl, rfl, rfl, rfl, rfl⟩

/-- Witness for C5: the page with canvas `c1` and the score `0.73`, which gives the data
`[73, 27]`; the score `0.57` gives `[56.99999999999999, 43.00000000000001]`, the binary64
values `8022036836253695 / 2^47` and `6051711999279105 / 2^47`; the score NaN gives
`[NaN, NaN]`. -/
theorem renderCircularScore_config_witness :
    (page "c1" 0).document "c1" = some 0 ∧
    (∃ cfg dataset,
      chartsSince (page "c1" 0) (renderCircularScore "c1" score073 (page "c1" 0)).2 =
        [(ChartItem.context2d ⟨0⟩, cfg)] ∧
      chartKind cfg = some (JsValue.str "doughnut") ∧
      datasetsOf cfg = some [dataset] ∧
      seriesOf cfg = some [(mul64 score073 (Double.finite 100)).toJs,
        (sub64 (Double.finite 100) (mul64 score073 (Double.finite 100))).toJs] ∧
      dataset.get "backgroundColor" =
        some (JsValue.arr [JsValue.str "#f4b400", JsValue.str "#f1f1f1"]) ∧
      cfg.path ["options", "cutout"] = some (JsValue.str "75%") ∧
      cfg.path ["options", "plugins", "tooltip", "enabled"] = some (JsValue.bool false)) ∧
    [(mul64 score073 (Double.finite 100)).toJs,
      (sub64 (Double.finite 100) (mul64 score073 (Double.finite 100))).toJs] =
      [JsValue.num 73, JsValue.num 27] ∧
    [(mul64 score057 (Double.finite 100)).toJs,
      (sub64 (Double.finite 100) (mul64 score057 (Double.finite 100))).toJs] =
      [JsValue.num (8022036836253695 / 2 ^ 47), JsValue.num (6051711999279105 / 2 ^ 47)] ∧
    [(mul64 Double.nan (Double.finite 100)).toJs,
      (sub64 (Double.finite 100) (mul64 Double.nan (Double.finite 100))).toJs] =
      [JsValue.nan, JsValue.nan] :=
  ⟨rfl, renderCircularScore_config (page "c1" 0) "c1" score073 0 rfl,
    by rw [remainder_score073, filled_score073]; rfl,
    by rw [remainder_score057, filled_score057]; rfl,
    by rw [mul64_100_nan, sub64_100_nan]; rfl⟩

/-- C2: when the canvas resolves, for every score `s` with `0 ≤ s ≤ 1` the two segment
values that `renderCircularScore` places in its dataset, `s * 100` and `100 - s * 100` as
binary64 computes them, are finite and sum to 100 within floating-point tolerance: their
exact sum differs from 100 by at most `2⁻⁴⁷`, and their binary64 sum is exactly 100.  Over
the rationals `s * 100 + (100 - s * 100)` is exactly 100. -/
theorem renderCircularScore_segments_sum (w : World) (canvasId : String) (s : Double)
    (el : Element) (h : w.document canvasId = some el)
    (hs0 : Double.le (Double.finite 0) s) (hs1 : Double.le s (Double.finite 1)) :
    ∃ cfg a b,
      chartsSince w (renderCircularScore canvasId s w).2 =
        [(ChartItem.context2d ⟨el⟩, cfg)] ∧
      seriesOf cfg = some [a.toJs, b.toJs] ∧
      a = mul64 s (Double.finite 100) ∧ b = sub64 (Double.finite 100) a ∧
      a.isFinite = true ∧ b.isFinite = true ∧
      |a.toRat + b.toRat - 100| ≤ 1 / 2 ^ 47 ∧
      add64 a b = Double.finite 100 ∧
      s.toRat * 100 + (100 - s.toRat * 100) = 100 := by
  have hu := segments_unit s hs0 hs1
  exact ⟨circularScoreConfig s, _, _, chartsSince_renderCircularScore w canvasId s el h,
    rfl, rfl, rfl, hu.1, hu.2.1, hu.2.2.2.2.2.2.1, hu.2.2.2.2.2.2.2, by ring⟩

/-- Witness for C2: the score `0.07` on the page with canvas `c1`.  Its segments are
`7.000000000000001` (the binary64 value `7881299347898369 / 2^50`) and `93`: their exact sum
is not 100, it is `2⁻⁵⁰` above. -/
theorem renderCircularScore_segments_sum_witness :
    (page "c1" 0).document "c1" = some 0 ∧
    Double.le (Double.finite 0) score007 ∧ Double.le score007 (Double.finite 1) ∧
    (∃ cfg a b,
      chartsSince (page "c1" 0) (renderCircularScore "c1" score007 (page "c1" 0)).2 =
        [(ChartItem.context2d ⟨0⟩, cfg)] ∧
      seriesOf cfg = some [a.toJs, b.toJs] ∧
      a = mul64 score007 (Double.finite 100) ∧ b = sub64 (Double.finite 100) a ∧
      a.isFinite = true ∧ b.isFinite = true ∧
      |a.toRat + b.toRat - 100| ≤ 1 / 2 ^ 47 ∧
      add64 a b = Double.finite 100 ∧
      score007.toRat * 100 + (100 - score007.toRat * 100) = 100) ∧
    mul64 score007 (Double.finite 100) = Double.finite (7881299347898369 / 2 ^ 50) ∧
    sub64 (Double.finite 100) (mul64 score007 (Double.finite 100)) = Double.finite 93 ∧
    (7881299347898369 / 2 ^ 50 + 93 - 100 : ℚ) = 1 / 2 ^ 50 :=
  ⟨rfl, by norm_num [Double.le, Double.key, score007],
    by norm_num [Double.le, Double.key, score007],
    renderCircularScore_segments_sum (page "c1" 0) "c1" score007 0 rfl
      (by norm_num [Double.le, Double.key, score007])
      (by norm_num [Double.le, Double.key, score007]),
    filled_score007, remainder_score007, by norm_num⟩

/-- C9 does not hold for every score below 0: for the binary64 score `-2⁻⁵⁷` the filled
segment is `-25 / 2^55` and the complementary segment is exactly 100, not greater than
100: rounding absorbs the tiny product. -/
theorem renderCircularScore_tiny_negative_score :
    Double.lt scoreTinyNeg (Double.finite 0) ∧ scoreTinyNeg.IsBinary64 ∧
    chartsSince (page "c1" 0) (renderCircularScore "c1" scoreTinyNeg (page "c1" 0)).2 =
      [(ChartItem.context2d ⟨0⟩, circularScoreConfig scoreTinyNeg)] ∧
    seriesOf (circularScoreConfig scoreTinyNeg) =
      some [JsValue.num (-(25 / 2 ^ 55)), JsValue.num 100] ∧
    sub64 (Double.finite 100) (mul64 scoreTinyNeg (Double.finite 100)) = Double.finite 100 ∧
    ¬ Double.lt (Double.finite 100)
      (sub64 (Double.finite 100) (mul64 scoreTinyNeg (Double.finite 100))) := by
  refine ⟨by norm_num [Double.lt, Double.key, scoreTinyNeg], scoreTinyNeg_isBinary64,
    chartsSince_renderCircularScore _ _ _ 0 rfl, ?_, remainder_scoreTinyNeg, ?_⟩
  · show some [(mul64 scoreTinyNeg (Double.finite 100)).toJs,
      (sub64 (Double.finite 100) (mul64 scoreTinyNeg (Double.finite 100))).toJs] = _
    rw [remainder_scoreTinyNeg, filled_scoreTinyNeg]; rfl
  · rw [remainder_scoreTinyNeg]; simp [Double.lt, Double.key]

/-- C9, with the rounding of binary64: `renderCircularScore` neither checks nor clamps the score.  When the
canvas resolves and the binary64 score lies outside `[0, 1]`, the call still returns
normally and the first segment is still exactly `score * 100` as binary64 computes it.
The complementary segment `100 - score * 100` is negative when `score > 1`; when
`score < 0` it is at least 100, and greater than 100 exactly when `score * 100` is below
`-2⁻⁴⁷`. -/
theorem renderCircularScore_no_clamping (w : World) (canvasId : String) (score : Double)
    (el : Element) (h : w.document canvasId = some el) (hb : score.IsBinary64)
    (hs : Double.lt score (Double.finite 0) ∨ Double.lt (Double.finite 1) score) :
    ∃ cfg a b,
      renderCircularScore canvasId score w =
        (Except.ok (), (renderCircularScore canvasId score w).2) ∧
      chartsSince w (renderCircularScore canvasId score w).2 =
        [(ChartItem.context2d ⟨el⟩, cfg)] ∧
      seriesOf cfg = some [a.toJs, b.toJs] ∧
      a = mul64 score (Double.finite 100) ∧ b = sub64 (Double.finite 100) a ∧
      (Double.lt (Double.finite 1) score → Double.lt b (Double.finite 0)) ∧
      (Double.lt score (Double.finite 0) → Double.le (Double.finite 100) b) ∧
      (Double.lt score (Double.finite 0) →
        (Double.lt (Double.finite 100) b ↔ Double.lt a (Double.finite (-(1 / 2 ^ 47))))) ∧
      (Double.lt b (Double.finite 0) ∨ Double.le (Double.finite 100) b) := by
  refine ⟨circularScoreConfig score, _, _, ?_,
    chartsSince_renderCircularScore w canvasId score el h, rfl, rfl, rfl,
    fun h1 => (segments_above_one score hb h1).2,
    fun h0 => (segments_below_zero score h0).1,
    fun h0 => (segments_below_zero score h0).2, ?_⟩
  · rw [renderCircularScore_some canvasId score w el h]
  · rcases hs with h0 | h1
    · exact Or.inr (segments_below_zero score h0).1
    · exact Or.inl (segments_above_one score hb h1).2

/-- Witness for C9: on the page with canvas `c1`, the score `3/2` gives the
segments `150` and `-50`, and the score `-1/2` gives `-50` and `150`; the score `2^1018`,
whose product with 100 overflows, gives `Infinity` and `-Infinity`. -/
theorem renderCircularScore_no_clamping_witness :
    (page "c1" 0).document "c1" = some 0 ∧
    (Double.finite (3 / 2)).IsBinary64 ∧ (Double.finite (-(1 / 2))).IsBinary64 ∧
    Double.lt (Double.finite 1) (Double.finite (3 / 2)) ∧
    Double.lt (Double.finite (-(1 / 2))) (Double.finite 0) ∧
    (∃ cfg a b,
      renderCircularScore "c1" (Double.finite (3 / 2)) (page "c1" 0) =
        (Except.ok (), (renderCircularScore "c1" (Double.finite (3 / 2)) (page "c1" 0)).2) ∧
      chartsSince (page "c1" 0)
        (renderCircularScore "c1" (Double.finite (3 / 2)) (page "c1" 0)).2 =
        [(ChartItem.context2d ⟨0⟩, cfg)] ∧
      seriesOf cfg = some [a.toJs, b.toJs] ∧
      a = mul64 (Double.finite (3 / 2)) (Double.finite 100) ∧
      b = sub64 (Double.finite 100) a ∧
      (Double.lt (Double.finite 1) (Double.finite (3 / 2)) → Double.lt b (Double.finite 0)) ∧
      (Double.lt (Double.finite (3 / 2)) (Double.finite 0) →
        Double.le (Double.finite 100) b) ∧
      (Double.lt (Double.finite (3 / 2)) (Double.finite 0) →
        (Double.lt (Double.finite 100) b ↔ Double.lt a (Double.finite (-(1 / 2 ^ 47))))) ∧
      (Double.lt b (Double.finite 0) ∨ Double.le (Double.finite 100) b)) ∧
    (∃ cfg a b,
      renderCircularScore "c1" (Double.finite (-(1 / 2))) (page "c1" 0) =
        (Except.ok (),
          (renderCircularScore "c1" (Double.finite (-(1 / 2))) (page "c1" 0)).2) ∧
      chartsSince (page "c1" 0)
        (renderCircularScore "c1" (Double.finite (-(1 / 2))) (page "c1" 0)).2 =
        [(ChartItem.context2d ⟨0⟩, cfg)] ∧
      seriesOf cfg = some [a.toJs, b.toJs] ∧
      a = mul64 (Double.finite (-(1 / 2))) (Double.finite 100) ∧
      b = sub64 (Double.finite 100) a ∧
      (Double.lt (Double.finite 1) (Double.finite (-(1 / 2))) →
        Double.lt b (Double.finite 0)) ∧
      (Double.lt (Double.finite (-(1 / 2))) (Double.finite 0) →
        Double.le (Double.finite 100) b) ∧
      (Double.lt (Double.finite (-(1 / 2))) (Double.finite 0) →
        (Double.lt (Double.finite 100) b ↔ Double.lt a (Double.finite (-(1 / 2 ^ 47))))) ∧
      (Double.lt b (Double.finite 0) ∨ Double.le (Double.finite 100) b)) ∧
    mul64 (Double.finite (3 / 2)) (Double.finite 100) = Double.finite 150 ∧
    sub64 (Double.finite 100) (mul64 (Double.finite (3 / 2)) (Double.finite 100)) =
      Double.finite (-50) ∧
    mul64 (Double.finite (-(1 / 2))) (Double.finite 100) = Double.finite (-50) ∧
    sub64 (Double.finite 100) (mul64 (Double.finite (-(1 / 2))) (Double.finite 100)) =
      Double.finite 150 ∧
    scoreHuge.IsBinary64 ∧
    mul64 scoreHuge (Double.finite 100) = Double.inf false ∧
    sub64 (Double.finite 100) (mul64 scoreHuge (Double.finite 100)) = Double.inf true :=
  ⟨rfl, isBinary64_three_halves, isBinary64_neg_half,
    by norm_num [Double.lt, Double.key], by norm_num [Double.lt, Double.key],
    renderCircularScore_no_clamping (page "c1" 0) "c1" (Double.finite (3 / 2)) 0 rfl
      isBinary64_three_halves (Or.inr (by norm_num [Double.lt, Double.key])),
    renderCircularScore_no_clamping (page "c1" 0) "c1" (Double.finite (-(1 / 2))) 0 rfl
      isBinary64_neg_half (Or.inl (by norm_num [Double.lt, Double.key])),
    filled_three_halves, remainder_three_halves, filled_neg_half, remainder_neg_half,
    scoreHuge_isBinary64, filled_scoreHuge, remainder_scoreHuge⟩

/-- C10: when the canvas resolves and the score is a binary64 value, the two segments that
`renderCircularScore` emits, `score * 100` and `100 - score * 100` as binary64 computes
them, both lie in `[0, 100]` if the score lies in `[0, 1]`, and conversely the score lies
in `[0, 1]` if both segments lie in `[0, 100]`.  The same equivalence holds for the exact
values over the rationals. -/
theorem renderCircularScore_segments_in_range_iff (w : World) (canvasId : String)
    (s : Double) (el : Element) (h : w.document canvasId = some el) (hb : s.IsBinary64) :
    ∃ cfg a b,
      chartsSince w (renderCircularScore canvasId s w).2 =
        [(ChartItem.context2d ⟨el⟩, cfg)] ∧
      seriesOf cfg = some [a.toJs, b.toJs] ∧
      a = mul64 s (Double.finite 100) ∧ b = sub64 (Double.finite 100) a ∧
      (Double.le (Double.finite 0) s ∧ Double.le s (Double.finite 1) →
        (Double.le (Double.finite 0) a ∧ Double.le a (Double.finite 100)) ∧
        (Double.le (Double.finite 0) b ∧ Double.le b (Double.finite 100))) ∧
      ((Double.le (Double.finite 0) a ∧ Double.le a (Double.finite 100)) ∧
        (Double.le (Double.finite 0) b ∧ Double.le b (Double.finite 100)) →
        Double.le (Double.finite 0) s ∧ Double.le s (Double.finite 1)) ∧
      (∀ q : ℚ, (0 ≤ q ∧ q ≤ 1) ↔
        ((0 ≤ q * 100 ∧ q * 100 ≤ 100) ∧ (0 ≤ 100 - q * 100 ∧ 100 - q * 100 ≤ 100))) := by
  refine ⟨circularScoreConfig s, _, _, chartsSince_renderCircularScore w canvasId s el h,
    rfl, rfl, rfl, ?_, ?_, ?_⟩
  · rintro ⟨h0, h1⟩
    have hu := segments_unit s h0 h1
    exact ⟨⟨hu.2.2.1, hu.2.2.2.1⟩, hu.2.2.2.2.1, hu.2.2.2.2.2.1⟩
  · rintro ⟨⟨ha0, ha1⟩, _⟩
    exact score_of_filled_in_range s hb ha0 ha1
  · intro q
    constructor
    · rintro ⟨h0, h1⟩
      exact ⟨⟨by linarith, by linarith⟩, by linarith, by linarith⟩
    · rintro ⟨⟨h0, h1⟩, _⟩
      exact ⟨by linarith, by linarith⟩

/-- Witness for C10: the score `0.73` on the page with canvas `c1`; its segments are `73`
and `27`. -/
theorem renderCircularScore_segments_in_range_iff_witness :
    (page "c1" 0).document "c1" = some 0 ∧ score073.IsBinary64 ∧
    (∃ cfg a b,
      chartsSince (page "c1" 0) (renderCircularScore "c1" score073 (page "c1" 0)).2 =
        [(ChartItem.context2d ⟨0⟩, cfg)] ∧
      seriesOf cfg = some [a.toJs, b.toJs] ∧
      a = mul64 score073 (Double.finite 100) ∧ b = sub64 (Double.finite 100) a ∧
      (Double.le (Double.finite 0) score073 ∧ Double.le score073 (Double.finite 1) →
        (Double.le (Double.finite 0) a ∧ Double.le a (Double.finite 100)) ∧
        (Double.le (Double.finite 0) b ∧ Double.le b (Double.finite 100))) ∧
      ((Double.le (Double.finite 0) a ∧ Double.le a (Double.finite 100)) ∧
        (Double.le (Double.finite 0) b ∧ Double.le b (Double.finite 100)) →
        Double.le (Double.finite 0) score073 ∧ Double.le score073 (Double.finite 1)) ∧
      (∀ q : ℚ, (0 ≤ q ∧ q ≤ 1) ↔
        ((0 ≤ q * 100 ∧ q * 100 ≤ 100) ∧ (0 ≤ 100 - q * 100 ∧ 100 - q * 100 ≤ 100)))) ∧
    Double.le (Double.finite 0) score073 ∧ Double.le score073 (Double.finite 1) ∧
    mul64 score073 (Double.finite 100) = Double.finite 73 ∧
    sub64 (Double.finite 100) (mul64 score073 (Double.finite 100)) = Double.finite 27 :=
  ⟨rfl, score073_isBinary64,
    renderCircularScore_segments_in_range_iff (page "c1" 0) "c1" score073 0 rfl
      score073_isBinary64,
    by norm_num [Double.le, Double.key, score073],
    by norm_num [Double.le, Double.key, score073],
    filled_score073, remainder_score073⟩

/-! ## Labels against data -/

/-- C7: in every line or bar configuration the scripts issue, for every input, the label
sequence is as long as the data sequence of the dataset.  `renderMobilityChart` issues one
`line` configuration with `data.length` labels for `data.length` samples when the canvas
resolves, and none otherwise; `renderRiskChart` issues one `bar` configuration with 3
labels for 3 values when the canvas resolves, and none otherwise; `dashboard.js` issues
one `bar` configuration with 4 labels for 4 values in every document, whether or not
`movementChart` resolves. -/
theorem labels_length_eq_data_length (w : World) (canvasId : String) (data : List ℚ)
    (low moderate elevated : ℚ) :
    (∀ el, w.document canvasId = some el →
      ∃ cfg labels values,
        chartsSince w (renderMobilityChart canvasId data w).2 =
          [(ChartItem.context2d ⟨el⟩, cfg)] ∧
        chartKind cfg = some (JsValue.str "line") ∧
        labelsOf cfg = some labels ∧ seriesOf cfg = some values ∧
        labels.length = values.length ∧ values.length = data.length) ∧
    (w.document canvasId = none →
      chartsSince w (renderMobilityChart canvasId data w).2 = []) ∧
    (∀ el, w.document canvasId = some el →
      ∃ cfg labels values,
        chartsSince w (renderRiskChart canvasId low moderate elevated w).2 =
          [(ChartItem.context2d ⟨el⟩, cfg)] ∧
        chartKind cfg = some (JsValue.str "bar") ∧
        labelsOf cfg = some labels ∧ seriesOf cfg = some values ∧
        labels.length = values.length ∧ values.length = 3) ∧
    (w.document canvasId = none →
      chartsSince w (renderRiskChart canvasId low moderate elevated w).2 = []) ∧
    (∃ item cfg labels values,
      chartsSince w (dashboard w) = [(item, cfg)] ∧
      chartKind cfg = some (JsValue.str "bar") ∧
      labelsOf cfg = some labels ∧ seriesOf cfg = some values ∧
      labels.length = values.length ∧ values.length = 4) := by
  refine ⟨fun el h => ⟨mobilityChartConfig data w.gradients.length, _, _, ?_, rfl, rfl, rfl,
      by simp, by simp⟩, fun h => ?_,
    fun el h => ⟨riskChartConfig low moderate elevated, _, _, ?_, rfl, rfl, rfl, rfl, rfl⟩,
    fun h => ?_,
    ⟨match w.document "movementChart" with
      | none => ChartItem.null
      | some el => ChartItem.element el,
      movementChartConfig, _, _, ?_, rfl, rfl, rfl, rfl, rfl⟩⟩
  · rw [renderMobilityChart_some canvasId data w el h]
    simp [chartsSince, eventsSince, chartsIn]
  · rw [renderMobilityChart_none canvasId data w h]
    simp [chartsSince, eventsSince, chartsIn]
  · rw [renderRiskChart_some canvasId low moderate elevated w el h]
    simp [chartsSince, eventsSince, chartsIn]
  · rw [renderRiskChart_none canvasId low moderate elevated w h]
    simp [chartsSince, eventsSince, chartsIn]
  · rw [dashboard_eq]
    simp only [chartsSince, eventsSince, List.drop_left, chartsIn]

/-- Witness for C7: on the page whose only canvas is `m1`, the samples `[10, 20, 15]` and
the magnitudes `5, 2, 1` through the canvas `m1`; through the identifier `nope`, which
does not resolve, no configuration from the two functions; and the configuration of
`dashboard.js`, issued although `movementChart` does not resolve on this page. -/
theorem labels_length_eq_data_length_witness :
    (page "m1" 0).document "m1" = some 0 ∧ (page "m1" 0).document "nope" = none ∧
    (page "m1" 0).document "movementChart" = none ∧
    (∃ cfg labels values,
      chartsSince (page "m1" 0) (renderMobilityChart "m1" [10, 20, 15] (page "m1" 0)).2 =
        [(ChartItem.context2d ⟨0⟩, cfg)] ∧
      chartKind cfg = some (JsValue.str "line") ∧
      labelsOf cfg = some labels ∧ seriesOf cfg = some values ∧
      labels.length = values.length ∧ values.length = [(10 : ℚ), 20, 15].length) ∧
    (∃ cfg labels values,
      chartsSince (page "m1" 0) (renderRiskChart "m1" 5 2 1 (page "m1" 0)).2 =
        [(ChartItem.context2d ⟨0⟩, cfg)] ∧
      chartKind cfg = some (JsValue.str "bar") ∧
      labelsOf cfg = some labels ∧ seriesOf cfg = some values ∧
      labels.length = values.length ∧ values.length = 3) ∧
    chartsSince (page "m1" 0) (renderMobilityChart "nope" [10, 20, 15] (page "m1" 0)).2 =
      [] ∧
    chartsSince (page "m1" 0) (renderRiskChart "nope" 5 2 1 (page "m1" 0)).2 = [] ∧
    (∃ item cfg labels values,
      chartsSince (page "m1" 0) (dashboard (page "m1" 0)) = [(item, cfg)] ∧
      chartKind cfg = some (JsValue.str "bar") ∧
      labelsOf cfg = some labels ∧ seriesOf cfg = some values ∧
      labels.length = values.length ∧ values.length = 4) :=
  ⟨rfl, rfl, rfl,
    (labels_length_eq_data_length (page "m1" 0) "m1" [10, 20, 15] 5 2 1).1 0 rfl,
    (labels_length_eq_data_length (page "m1" 0) "m1" [10, 20, 15] 5 2 1).2.2.1 0 rfl,
    (labels_length_eq_data_length (page "m1" 0) "nope" [10, 20, 15] 5 2 1).2.1 rfl,
    (labels_length_eq_data_length (page "m1" 0) "nope" [10, 20, 15] 5 2 1).2.2.2.1 rfl,
    (labels_length_eq_data_length (page "m1" 0) "nope" [10, 20, 15] 5 2 1).2.2.2.2⟩

end FallVision
